import Mathlib

/-!
# Verification of the URL2URL multi-candidate matching engine

Shallow embedding of the core matching engine of the URL2URL repository:

* `apps/api/services/matcher_v2.py` — `MultiCandidateMatcher` (candidate
  scoring, thresholding, confidence tiers, AI-validation gating, ontology
  helpers);
* `apps/api/services/ai_validator.py` — `AIValidator` (verdict-based score
  adjustment, validation-range gating);
* `apps/api/services/progress.py` — `JobProgress` / `ProgressTracker`;
* `apps/api/services/job_runner.py` — the matcher-configuration block of
  `JobRunner.run_job`.

Modelling conventions:

* Python `float` scores are modelled as `ℚ` (the claims under study are
  order/interval properties of the scoring arithmetic, not float-rounding
  properties); Python `int` as `ℤ` (or `ℕ` for the non-negative counters).
* Python `str.lower()` is modelled as ASCII lowercasing via an explicit
  letter table, and `str.strip()` as removal of leading/trailing whitespace
  characters.
* External collaborators (the pgvector similarity index, the image-OCR
  comparison block, and the LLM behind the arbitration service) are inputs:
  the candidate rows with their semantic similarities, the per-candidate
  visual-similarity outcome, and the parsed LLM verdict (or call failure)
  are parameters of the embedded functions.  Everything computed *from*
  those inputs (scoring, sorting, gating, clamping, adjustment) is embedded
  from the source.
-/

set_option autoImplicit false

namespace URL2URL

/-! ## Python string primitives -/

/-- ASCII uppercase/lowercase letter pairs, used to model CPython
`str.lower()` on the ASCII range. -/
def lowerPairs : List (Char × Char) :=
  [('A', 'a'), ('B', 'b'), ('C', 'c'), ('D', 'd'), ('E', 'e'), ('F', 'f'),
   ('G', 'g'), ('H', 'h'), ('I', 'i'), ('J', 'j'), ('K', 'k'), ('L', 'l'),
   ('M', 'm'), ('N', 'n'), ('O', 'o'), ('P', 'p'), ('Q', 'q'), ('R', 'r'),
   ('S', 's'), ('T', 't'), ('U', 'u'), ('V', 'v'), ('W', 'w'), ('X', 'x'),
   ('Y', 'y'), ('Z', 'z')]

/-- Lowercase one character (ASCII model of Python `str.lower`). -/
def lowerChar (c : Char) : Char :=
  match lowerPairs.find? (fun p => p.1 = c) with
  | some p => p.2
  | none => c

/-- Whitespace test used by Python `str.strip()` / `str.split()`
(restricted to the common ASCII whitespace characters). -/
def wsChar (c : Char) : Bool :=
  c = ' ' || c = '\t' || c = '\n' || c = '\r'

/-- Python `str.lower()`. -/
def pyLower (s : String) : String := String.mk (s.data.map lowerChar)

/-- Drop leading and trailing whitespace from a character list. -/
def stripList (l : List Char) : List Char :=
  ((l.dropWhile wsChar).reverse.dropWhile wsChar).reverse

/-- Python `str.strip()`. -/
def pyStrip (s : String) : String := String.mk (stripList s.data)

/-- Python `x.lower().strip()` as used on brand / category fields. -/
def pyLowerStrip (s : String) : String := pyStrip (pyLower s)

/-- Python substring containment `a in b`. -/
def pySubstr (a b : String) : Bool :=
  b.data.tails.any (fun t => a.data.isPrefixOf t)

/-- Helper for Python `str.split()`: accumulate a run of non-whitespace
characters (held reversed in `acc`) and cut at whitespace. -/
def splitWSAux : List Char → List Char → List (List Char)
  | [], acc => if acc = [] then [] else [acc.reverse]
  | c :: rest, acc =>
    if wsChar c then
      if acc = [] then splitWSAux rest [] else acc.reverse :: splitWSAux rest []
    else splitWSAux rest (c :: acc)

/-- Python `str.split()` (split on whitespace runs, dropping empties). -/
def pySplit (s : String) : List String :=
  (splitWSAux s.data []).map String.mk

/-! ## Confidence tiers (`models/schemas.py` / `matcher_v2.py`) -/

/-- `ConfidenceTier` from `models/schemas.py`. -/
inductive ConfidenceTier where
  | EXACT_MATCH
  | HIGH_CONFIDENCE
  | GOOD_MATCH
  | LIKELY_MATCH
  | MANUAL_REVIEW
  | NO_MATCH
  deriving DecidableEq, Repr

/-- Rank of a tier, `NO_MATCH` lowest: used to state monotonicity of the
classifier. -/
def ConfidenceTier.rank : ConfidenceTier → ℕ
  | .NO_MATCH => 0
  | .MANUAL_REVIEW => 1
  | .LIKELY_MATCH => 2
  | .GOOD_MATCH => 3
  | .HIGH_CONFIDENCE => 4
  | .EXACT_MATCH => 5

/-- `MultiCandidateMatcher._get_confidence_tier` (matcher_v2.py:644-656). -/
def get_confidence_tier (score : ℚ) : ConfidenceTier :=
  if score ≥ 0.95 then .EXACT_MATCH
  else if score ≥ 0.90 then .HIGH_CONFIDENCE
  else if score ≥ 0.80 then .GOOD_MATCH
  else if score ≥ 0.70 then .LIKELY_MATCH
  else if score ≥ 0.50 then .MANUAL_REVIEW
  else .NO_MATCH

/-! ## AI validator (`ai_validator.py`) -/

/-- `ValidationResultType` (ai_validator.py:19-24). -/
inductive ValidationResultType where
  | CONFIRMED
  | REJECTED
  | UNCERTAIN
  | SKIPPED
  deriving DecidableEq, Repr

/-- The `.value` string of a `ValidationResultType`. -/
def ValidationResultType.value : ValidationResultType → String
  | .CONFIRMED => "confirmed"
  | .REJECTED => "rejected"
  | .UNCERTAIN => "uncertain"
  | .SKIPPED => "skipped"

/-- `AIValidationResponse` (ai_validator.py:37-44). -/
structure AIValidationResponse where
  result : ValidationResultType
  confidence : ℚ
  reasoning : String
  adjusted_score : Option ℚ := none
  error : Option String := none
  deriving Repr

/-- The validator's runtime state: `AIValidator.enabled` (true only when
constructed enabled *and* an API key is configured, ai_validator.py:91). -/
structure AIValidator where
  enabled : Bool
  deriving Repr

/-- `AIValidator.MIN_SCORE_FOR_VALIDATION`. -/
def MIN_SCORE_FOR_VALIDATION : ℚ := 0.50
/-- `AIValidator.MAX_SCORE_FOR_VALIDATION`. -/
def MAX_SCORE_FOR_VALIDATION : ℚ := 0.94
/-- `AIValidator.CONFIRMED_BOOST`. -/
def CONFIRMED_BOOST : ℚ := 0.08
/-- `AIValidator.REJECTED_PENALTY` (note: stored negative in the source). -/
def REJECTED_PENALTY : ℚ := -0.15

/-- `AIValidator.should_validate` (ai_validator.py:133-155). -/
def AIValidator.should_validate (v : AIValidator) (score : ℚ) : Bool :=
  if ¬ v.enabled then false
  else if score ≥ 0.95 then false
  else if score < MIN_SCORE_FOR_VALIDATION then false
  else decide (MIN_SCORE_FOR_VALIDATION ≤ score ∧ score ≤ MAX_SCORE_FOR_VALIDATION)

/-- `AIValidator._adjust_score` (ai_validator.py:387-403). -/
def adjust_score (current_score : ℚ) (validation : AIValidationResponse) : ℚ :=
  match validation.result with
  | .CONFIRMED => min 1 (current_score + CONFIRMED_BOOST * validation.confidence)
  | .REJECTED => max 0 (current_score + REJECTED_PENALTY * validation.confidence)
  | _ => current_score

/-- A verdict parsed from the LLM's text reply: `_parse_response`
(ai_validator.py:354-385) only ever produces these three results. -/
inductive ParsedVerdict where
  | CONFIRMED
  | REJECTED
  | UNCERTAIN
  deriving DecidableEq, Repr

/-- Embed a parsed verdict into `ValidationResultType`. -/
def ParsedVerdict.toResult : ParsedVerdict → ValidationResultType
  | .CONFIRMED => .CONFIRMED
  | .REJECTED => .REJECTED
  | .UNCERTAIN => .UNCERTAIN

/-- Outcome of the external LLM call inside `validate_match`: either an
exception (caught at ai_validator.py:227-235) or a parsed reply carrying a
verdict, a raw confidence number and reasoning text.  The confidence clamp
of `_parse_response` (line 375) is applied by `validate_match` below. -/
inductive LLMCall where
  | failure (err : String)
  | reply (verdict : ParsedVerdict) (rawConfidence : ℚ) (reasoning : String)

/-- `AIValidator.validate_match` (ai_validator.py:157-235), as a function of
the current score and the LLM-call outcome.  The titles/brands arguments
only feed the prompt of the external call and are omitted. -/
def AIValidator.validate_match (v : AIValidator) (current_score : ℚ)
    (call : LLMCall) : AIValidationResponse :=
  if ¬ v.enabled then
    { result := .SKIPPED, confidence := 0, reasoning := "AI validation disabled" }
  else if ¬ v.should_validate current_score then
    { result := .SKIPPED
      confidence := 0
      reasoning := "Score outside validation range" }
  else
    match call with
    | .failure e =>
      { result := .SKIPPED
        confidence := 0
        reasoning := "Validation error"
        error := some e }
    | .reply verdict rawConf reasoning =>
      let confidence := max 0 (min 1 rawConf)
      let parsed : AIValidationResponse :=
        { result := verdict.toResult
          confidence := confidence
          reasoning := reasoning }
      let adjusted := adjust_score current_score parsed
      { result := verdict.toResult
        confidence := confidence
        reasoning := reasoning
        adjusted_score := some adjusted }

/-! ## Matcher data model (`matcher_v2.py`) -/

/-- The product fields read by the matcher (`models/schemas.py.Product`,
restricted to the fields the matching code uses). -/
structure Product where
  title : String
  brand : Option String := none
  category : Option String := none

/-- A candidate row as returned by the external similarity index
(`search_similar_products`): a loosely-typed record; absent keys are
`none`. -/
structure Row where
  id : ℕ
  title : String
  url : String := ""
  brand : Option String := none
  category : Option String := none
  image_url : Option String := none
  similarity : Option ℚ := none

/-- `CandidateMatch` (matcher_v2.py:62-75). -/
structure CandidateMatch where
  product_id : ℕ
  title : String
  url : String
  score : ℚ
  brand : String := ""
  category : String := ""
  image_url : String := ""
  ai_validated : Bool := false
  ai_adjusted_score : Option ℚ := none
  ai_reasoning : String := ""
  deriving Repr

instance : Inhabited CandidateMatch :=
  ⟨{ product_id := 0, title := "", url := "", score := 0 }⟩

/-- `MatchResult` (matcher_v2.py:78-91). -/
structure MatchResult where
  source_product : Product
  best_match : Option CandidateMatch
  top_5_candidates : List CandidateMatch
  confidence_tier : ConfidenceTier
  explanation : String
  is_no_match : Bool
  no_match_reason : String := ""
  ai_validated : Bool := false
  ai_validation_result : Option String := none
  original_score : Option ℚ := none

/-- `_extract_variants` output shape (matcher_v2.py:713-739): a five-field
record (sizes in ml, weights in g, pack count, shade code, model code). -/
structure Variants where
  size_ml : Option ℚ := none
  weight_g : Option ℚ := none
  pack : Option ℤ := none
  shade : Option String := none
  model : Option String := none

/-- Python truthiness of an optional float (`None` and `0.0` are falsy). -/
def truthyQ : Option ℚ → Bool
  | none => false
  | some x => decide (x ≠ 0)

/-- Python truthiness of an optional int. -/
def truthyZ : Option ℤ → Bool
  | none => false
  | some x => decide (x ≠ 0)

/-- Python truthiness of an optional string. -/
def truthyS : Option String → Bool
  | none => false
  | some s => decide (s ≠ "")

/-- `close(x, y, tol)` inside `_compare_variants` (matcher_v2.py:745-746). -/
def closeTol (x y : Option ℚ) (tol : ℚ) : Bool :=
  match x, y with
  | some a, some b => decide (|a - b| ≤ tol)
  | _, _ => false

/-- One field's contribution inside `_compare_variants`: if either side is
truthy the check counts, and it scores only when both sides are truthy and
the comparison succeeds. -/
def variantCheck (aT bT matched : Bool) : ℕ × ℚ :=
  if aT || bT then (1, if aT && bT && matched then 1 else 0) else (0, 0)

/-- `MultiCandidateMatcher._compare_variants` (matcher_v2.py:741-771).
The leading `if not a and not b` guard of the source never fires in the
matcher flow because `_extract_variants` always returns a populated
(truthy) five-key dict; it is modelled by the record type itself. -/
def compare_variants (a b : Variants) : Option ℚ :=
  let c1 := variantCheck (truthyQ a.size_ml) (truthyQ b.size_ml)
    (closeTol a.size_ml b.size_ml 1)
  let c2 := variantCheck (truthyQ a.weight_g) (truthyQ b.weight_g)
    (closeTol a.weight_g b.weight_g 1)
  let c3 := variantCheck (truthyZ a.pack) (truthyZ b.pack) (a.pack == b.pack)
  let c4 := variantCheck (truthyS a.shade) (truthyS b.shade) (a.shade == b.shade)
  let c5 := variantCheck (truthyS a.model) (truthyS b.model) (a.model == b.model)
  let checks := c1.1 + c2.1 + c3.1 + c4.1 + c5.1
  let score := c1.2 + c2.2 + c3.2 + c4.2 + c5.2
  if checks = 0 then none else some (score / checks)

/-- `MultiCandidateMatcher._canonicalize_brand` (matcher_v2.py:683-695),
as a function of the alias table (`self._brand_aliases`; `none` models the
attribute being absent).  The table is an insertion-ordered association
list of canonical key to alias list, mirroring the JSON dict. -/
def canonicalize_brand (table : Option (List (String × List String)))
    (brand : String) : String :=
  let b := pyLowerStrip brand
  match table with
  | none => b
  | some t =>
    if b = "" then b
    else if t.any (fun p => p.1 = b) then b
    else
      match t.find? (fun p => b = p.1 ∨ p.2.contains b) with
      | some p => p.1
      | none => b

/-- `MultiCandidateMatcher._categories_related` (matcher_v2.py:697-711), as
a function of the synonym table (`self._category_synonyms`). -/
def categories_related (table : Option (List (String × List String)))
    (s t : String) : Bool :=
  match table with
  | none => false
  | some syns =>
    let s := pyLowerStrip s
    let t := pyLowerStrip t
    if s = t then true
    else if (syns.find? (fun p => p.1 = s)).elim false (fun p => p.2.contains t) then true
    else (syns.find? (fun p => p.1 = t)).elim false (fun p => p.2.contains s)

/-- The configuration attribute values the matcher code reads.  The first
block are the declared `MatcherConfig` dataclass fields (matcher_v2.py:38-59,
minus the unused weight fields); the second block are the optional feature
toggles probed with `getattr(self.config, ..., False)` / default probes,
which on the declared dataclass always read their defaults. -/
structure ProbedConfig where
  enable_ai_validation : Bool := false
  ai_validation_min_score : ℚ := 0.70
  ai_validation_max_score : ℚ := 0.94
  max_ai_validations_per_job : ℤ := 100
  enable_image_matching : Bool := false
  embed_enriched_text : Bool := false
  token_norm_v2 : Bool := false
  use_brand_ontology : Bool := false
  use_category_ontology : Bool := false
  use_variant_extractor : Bool := false
  use_ocr_text : Bool := false
  max_image_comparisons_per_job : ℤ := 500

/-- `MultiCandidateMatcher` runtime state relevant to matching:
configuration, the optional AI validator (`self._ai_validator`), image
matcher availability, loaded ontology tables, the variant extractor (the
regex heuristics of `_extract_variants`, kept abstract: only the shape of
its output matters to the claims under study) and the per-job validation
counter `self._ai_validations_used`. -/
structure Matcher where
  config : ProbedConfig
  ai_validator : Option AIValidator := none
  image_matcher_available : Bool := false
  brand_aliases : Option (List (String × List String)) := none
  category_synonyms : Option (List (String × List String)) := none
  variant_extractor : String → Variants := fun _ => {}
  ai_validations_used : ℕ := 0

/-- Whether the visual-weight set is active: `__init__` switches the weight
attributes exactly when image matching is enabled and available
(matcher_v2.py:170-181). -/
def Matcher.visualMode (m : Matcher) : Bool :=
  m.config.enable_image_matching && m.image_matcher_available

/-- `self.SEMANTIC_WEIGHT` (0.60 standard, 0.50 with visual signal). -/
def Matcher.SEMANTIC_WEIGHT (m : Matcher) : ℚ :=
  if m.visualMode then 0.50 else 0.60

/-- `self.TOKEN_WEIGHT` (0.25 standard, 0.20 with visual signal). -/
def Matcher.TOKEN_WEIGHT (m : Matcher) : ℚ :=
  if m.visualMode then 0.20 else 0.25

/-- `self.ATTRIBUTE_WEIGHT` (0.15 in both modes). -/
def Matcher.ATTRIBUTE_WEIGHT (_m : Matcher) : ℚ := 0.15

/-- `self.VISUAL_WEIGHT` (0 standard, 0.15 with visual signal). -/
def Matcher.VISUAL_WEIGHT (m : Matcher) : ℚ :=
  if m.visualMode then 0.15 else 0

/-- `MultiCandidateMatcher.NO_MATCH_THRESHOLD`. -/
def NO_MATCH_THRESHOLD : ℚ := 0.50

/-- `MultiCandidateMatcher.TOP_CANDIDATES`. -/
def TOP_CANDIDATES : ℕ := 5

/-- Stop-word list of `_tokenize_text` v2 mode (matcher_v2.py:637-641). -/
def stopWords : List String :=
  ["the", "a", "an", "and", "or", "for", "with", "by", "of", "to", "on", "in",
   "ml", "g", "gm", "kg", "oz", "fl", "pack", "pcs", "set", "new", "free",
   "best", "sale", "off", "price"]

/-- Character class `[a-z]`. -/
def isLowerAZ (c : Char) : Bool := decide (97 ≤ c.toNat ∧ c.toNat ≤ 122)

/-- Character class `[A-Z]`. -/
def isUpperAZ (c : Char) : Bool := decide (65 ≤ c.toNat ∧ c.toNat ≤ 90)

/-- Character class `[0-9]`. -/
def isDigitC (c : Char) : Bool := decide (48 ≤ c.toNat ∧ c.toNat ≤ 57)

/-- Character class `[a-z0-9]`. -/
def isLowerAlnum (c : Char) : Bool := isLowerAZ c || isDigitC c

/-- `re.sub(r'([a-z])([A-Z0-9])', r'\x7b1 \x7b2', raw)` modelled on the
character list: insert a space between a lowercase letter and an
uppercase letter or digit, resuming after the matched pair. -/
def normSub1 : List Char → List Char
  | c :: d :: rest =>
    if isLowerAZ c && (isUpperAZ d || isDigitC d) then
      c :: ' ' :: d :: normSub1 rest
    else c :: normSub1 (d :: rest)
  | l => l

/-- `re.sub(r'([0-9])([a-zA-Z])', ...)`: space between a digit and a
letter. -/
def normSub2 : List Char → List Char
  | c :: d :: rest =>
    if isDigitC c && (isLowerAZ d || isUpperAZ d) then
      c :: ' ' :: d :: normSub2 rest
    else c :: normSub2 (d :: rest)
  | l => l

/-- `re.sub(r'[^a-z0-9]+', ' ', raw)`: replace each maximal run of
non-alphanumerics with one space (`inRun` tracks being inside a run). -/
def normSub3Aux : Bool → List Char → List Char
  | _, [] => []
  | inRun, c :: rest =>
    if isLowerAlnum c then c :: normSub3Aux false rest
    else if inRun then normSub3Aux true rest
    else ' ' :: normSub3Aux true rest

/-- `re.sub(r'\s+', ' ', raw)`: collapse whitespace runs to one space. -/
def collapseWSAux : Bool → List Char → List Char
  | _, [] => []
  | inRun, c :: rest =>
    if ¬ wsChar c then c :: collapseWSAux false rest
    else if inRun then collapseWSAux true rest
    else ' ' :: collapseWSAux true rest

/-- `MultiCandidateMatcher._tokenize_text` (matcher_v2.py:621-642): basic
lowercase-and-split, or the v2 normalisation pipeline when
`token_norm_v2` is set. -/
def Matcher.tokenize_text (m : Matcher) (text : String) : Finset String :=
  if text = "" then ∅
  else
    let raw := pyLowerStrip text
    if ¬ m.config.token_norm_v2 then (pySplit raw).toFinset
    else
      let r := normSub1 raw.data
      let r := normSub2 r
      let r := normSub3Aux false r
      let r := stripList (collapseWSAux false r)
      let tokens := (pySplit (String.mk r)).toFinset
      tokens.filter (fun t => t ∉ stopWords ∧ 2 ≤ t.data.length)

/-- The brand check of `_attribute_match` (matcher_v2.py:587-598):
(score contribution, check count). -/
def brandPart (m : Matcher) (source : Product) (target : Row) : ℚ × ℕ :=
  let src_brand := pyStrip (source.brand.getD "")
  let tgt_brand := pyStrip (target.brand.getD "")
  let src_brand_c := canonicalize_brand m.brand_aliases src_brand
  let tgt_brand_c := canonicalize_brand m.brand_aliases tgt_brand
  if src_brand_c ≠ "" ∧ tgt_brand_c ≠ "" then
    (if src_brand_c = tgt_brand_c then 1
     else if pySubstr src_brand_c tgt_brand_c || pySubstr tgt_brand_c src_brand_c then 0.5
     else 0, 1)
  else (0, 0)

/-- The category check of `_attribute_match` (matcher_v2.py:600-608). -/
def catPart (m : Matcher) (source : Product) (target : Row) : ℚ × ℕ :=
  let src_cat := pyLowerStrip (source.category.getD "")
  let tgt_cat := pyLowerStrip (target.category.getD "")
  if src_cat ≠ "" ∧ tgt_cat ≠ "" then
    (if src_cat = tgt_cat then 1
     else if categories_related m.category_synonyms src_cat tgt_cat then 0.5
     else 0, 1)
  else (0, 0)

/-- The optional variant check of `_attribute_match`
(matcher_v2.py:610-617). -/
def varPart (m : Matcher) (source : Product) (target : Row) : ℚ × ℕ :=
  if m.config.use_variant_extractor then
    match compare_variants (m.variant_extractor source.title)
        (m.variant_extractor target.title) with
    | some v => (v, 1)
    | none => (0, 0)
  else (0, 0)

/-- `MultiCandidateMatcher._attribute_match` (matcher_v2.py:582-619). -/
def Matcher.attribute_match (m : Matcher) (source : Product) (target : Row) : ℚ :=
  let score := (brandPart m source target).1 + (catPart m source target).1 +
    (varPart m source target).1
  let checks := (brandPart m source target).2 + (catPart m source target).2 +
    (varPart m source target).2
  if checks = 0 then 0 else score / checks

/-- The token-overlap Jaccard similarity of `_compute_multi_signal_score`
(matcher_v2.py:558-563): `intersection / union if union else 0`. -/
def Matcher.tokenJaccard (m : Matcher) (sourceTitle targetTitle : String) : ℚ :=
  let source_tokens := m.tokenize_text sourceTitle
  let target_tokens := m.tokenize_text targetTitle
  let intersection := (source_tokens ∩ target_tokens).card
  let union := (source_tokens ∪ target_tokens).card
  if union = 0 then 0 else (intersection : ℚ) / union

/-- The visual-signal contribution of `_compute_multi_signal_score`
(matcher_v2.py:568-571). -/
def Matcher.visualScore (m : Matcher) (visual_sim : Option ℚ) : ℚ :=
  match visual_sim with
  | some v => if m.VISUAL_WEIGHT > 0 then v * m.VISUAL_WEIGHT else 0
  | none => 0

/-- The brand-mismatch penalty of `_compute_multi_signal_score`
(matcher_v2.py:574-579): subtract 0.05, floored at 0, when the brand
ontology is enabled and both canonical brands are non-empty and differ. -/
def Matcher.brandPenalty (m : Matcher) (source : Product) (target : Row)
    (combined : ℚ) : ℚ :=
  if m.config.use_brand_ontology then
    let sb := canonicalize_brand m.brand_aliases (pyStrip (source.brand.getD ""))
    let tb := canonicalize_brand m.brand_aliases (pyStrip (target.brand.getD ""))
    if sb ≠ "" ∧ tb ≠ "" ∧ sb ≠ tb then max 0 (combined - 0.05) else combined
  else combined

/-- `MultiCandidateMatcher._compute_multi_signal_score`
(matcher_v2.py:533-580). -/
def Matcher.compute_multi_signal_score (m : Matcher) (source : Product)
    (target : Row) (semantic_sim : ℚ) (visual_sim : Option ℚ) : ℚ :=
  let semantic_score := semantic_sim * m.SEMANTIC_WEIGHT
  let token_score := m.tokenJaccard source.title target.title * m.TOKEN_WEIGHT
  let attr_score := m.attribute_match source target * m.ATTRIBUTE_WEIGHT
  let visual_score := m.visualScore visual_sim
  let combined := semantic_score + token_score + attr_score + visual_score
  m.brandPenalty source target combined

/-- `MultiCandidateMatcher._should_ai_validate` (matcher_v2.py:461-481). -/
def Matcher.should_ai_validate (m : Matcher) (score : ℚ) : Bool :=
  if m.ai_validator.isNone || ¬ m.config.enable_ai_validation then false
  else if (m.ai_validations_used : ℤ) ≥ max 0 m.config.max_ai_validations_per_job then false
  else decide (m.config.ai_validation_min_score ≤ score ∧
    score ≤ m.config.ai_validation_max_score)

/-- Outcome of one attempted arbitration call from the matcher's side:
either the awaited coroutine raises (caught at matcher_v2.py:514-516,
yielding `None`), or the validator runs on the given LLM-call outcome. -/
inductive AICallAttempt where
  | crash (err : String)
  | call (llm : LLMCall)

/-- `MultiCandidateMatcher._run_ai_validation` (matcher_v2.py:483-516). -/
def Matcher.run_ai_validation (m : Matcher) (score : ℚ)
    (attempt : AICallAttempt) : Option AIValidationResponse :=
  match m.ai_validator with
  | none => none
  | some v =>
    match attempt with
    | .crash _ => none
    | .call llm => some (v.validate_match score llm)

/-- Percent formatting `f"...:.0%"`; Python's float formatting is modelled
as rational rounding (no claim inspects these strings' digits). -/
def pctStr (q : ℚ) : String := toString (round (q * 100) : ℤ) ++ "%"

/-- `MultiCandidateMatcher._generate_explanation` (matcher_v2.py:658-680). -/
def generate_explanation (source : Product) (best : CandidateMatch)
    (confidence : ConfidenceTier) : String :=
  if confidence = .EXACT_MATCH then ""
  else
    let source_brand := pyStrip (source.brand.getD "")
    let brandReasons :=
      if source_brand ≠ "" ∧ best.brand ≠ "" ∧ pyLower source_brand ≠ pyLower best.brand then
        ["Brand: " ++ source_brand ++ " → " ++ best.brand]
      else []
    let scoreReasons :=
      if best.score < 0.90 then ["Score: " ++ pctStr best.score] else []
    let reasons := brandReasons ++ scoreReasons
    if reasons = [] then "Minor variations detected"
    else String.intercalate "; " reasons

/-- Build a `CandidateMatch` from a scored row (matcher_v2.py:373-381). -/
def mkCandidate (row : Row) (score : ℚ) : CandidateMatch :=
  { product_id := row.id
    title := row.title
    url := row.url
    score := score
    brand := row.brand.getD ""
    category := row.category.getD ""
    image_url := row.image_url.getD "" }

/-- Score all candidate rows (matcher_v2.py:347-381).  `visual_sims i` is
the net outcome of the image-comparison block for the `i`-th row (`none`
when image matching is disabled, capped, lacking URLs, or failed — the
block wraps an external collaborator). -/
def Matcher.scoreCandidates (m : Matcher) (source : Product)
    (candidates : List (Row × ℚ)) (visual_sims : ℕ → Option ℚ) :
    List CandidateMatch :=
  candidates.enum.map (fun p =>
    mkCandidate p.2.1 (m.compute_multi_signal_score source p.2.1 p.2.2 (visual_sims p.1)))

/-- Stable insertion into a descending-sorted list (model of Python
`list.sort(key=lambda x: x.score, reverse=True)`). -/
def insertDesc (c : CandidateMatch) : List CandidateMatch → List CandidateMatch
  | [] => [c]
  | d :: ds => if c.score ≥ d.score then c :: d :: ds else d :: insertDesc c ds

/-- Stable descending sort by score. -/
def sortDesc : List CandidateMatch → List CandidateMatch
  | [] => []
  | c :: cs => insertDesc c (sortDesc cs)

/-- The NO_MATCH result returned when the candidate search comes back empty
(matcher_v2.py:335-344). -/
def emptyCatalogResult (source : Product) : MatchResult :=
  { source_product := source
    best_match := none
    top_5_candidates := []
    confidence_tier := .NO_MATCH
    explanation := "No products found in catalog"
    is_no_match := true
    no_match_reason := "Empty catalog or no embeddings generated" }

/-- Result of one `match_product` call: the `MatchResult`, the updated
matcher state (the per-job counter may have advanced) and whether
`_run_ai_validation` was invoked. -/
structure MatchOutcome where
  result : MatchResult
  matcher : Matcher
  invoked : Bool

/-- Assemble the final (non-NO_MATCH) `MatchResult`
(matcher_v2.py:441-459). -/
def finishResult (source : Product) (best : CandidateMatch)
    (top5 : List CandidateMatch) (ai_validated : Bool)
    (ai_result : Option ValidationResultType) (original_score : ℚ) :
    MatchResult :=
  let confidence := get_confidence_tier best.score
  let explanation := generate_explanation source best confidence
  let explanation :=
    if ai_validated ∧ best.ai_reasoning ≠ "" then
      if explanation ≠ "" then explanation ++ "; AI: " ++ best.ai_reasoning
      else "AI: " ++ best.ai_reasoning
    else explanation
  { source_product := source
    best_match := some best
    top_5_candidates := top5
    confidence_tier := confidence
    explanation := explanation
    is_no_match := false
    ai_validated := ai_validated
    ai_validation_result := ai_result.map ValidationResultType.value
    original_score := if ai_validated then some original_score else none }

/-- The terminal NO_MATCH result of the below-threshold branch
(matcher_v2.py:391-400): top-5 cleared, explanation citing the best score,
reason citing the best candidate's title and score. -/
def thresholdNoMatchResult (source : Product) (best : CandidateMatch) :
    MatchResult :=
  { source_product := source
    best_match := none
    top_5_candidates := []
    confidence_tier := .NO_MATCH
    explanation := "Best match scored " ++ pctStr best.score ++ ", below 50% threshold"
    is_no_match := true
    no_match_reason := "Best candidate: " ++ best.title ++ " (" ++ pctStr best.score ++ ")" }

/-- The in-place mutation of the best candidate after a score-moving
verdict (matcher_v2.py:424-427). -/
def adjustedBest (best : CandidateMatch) (adj : ℚ) (reasoning : String) :
    CandidateMatch :=
  { best with
    ai_validated := true
    ai_adjusted_score := some adj
    ai_reasoning := reasoning
    score := adj }

/-- `MultiCandidateMatcher.match_product` (matcher_v2.py:311-459), as a
function of the search-candidate list (output of `search_candidates`), the
per-candidate visual-similarity outcomes and the arbitration-call
outcome. -/
def Matcher.match_product (m : Matcher) (source : Product)
    (candidates : List (Row × ℚ)) (visual_sims : ℕ → Option ℚ)
    (attempt : AICallAttempt) : MatchOutcome :=
  match candidates with
  | [] => ⟨emptyCatalogResult source, m, false⟩
  | _ :: _ =>
    let scored := m.scoreCandidates source candidates visual_sims
    let sorted := sortDesc scored
    let best := sorted.headD default
    let top5 := sorted.take TOP_CANDIDATES
    if best.score < NO_MATCH_THRESHOLD then
      ⟨thresholdNoMatchResult source best, m, false⟩
    else if m.should_ai_validate best.score then
      match m.run_ai_validation best.score attempt with
      | some resp =>
        if resp.result ≠ .SKIPPED then
          let m' := { m with ai_validations_used := m.ai_validations_used + 1 }
          match resp.adjusted_score with
          | some adj =>
            if adj ≠ best.score then
              let sorted1 := sortDesc (adjustedBest best adj resp.reasoning :: sorted.tail)
              ⟨finishResult source (sorted1.headD default)
                (sorted1.take TOP_CANDIDATES) true (some resp.result)
                best.score, m', true⟩
            else
              ⟨finishResult source best top5 true (some resp.result)
                best.score, m', true⟩
          | none =>
            ⟨finishResult source best top5 true (some resp.result)
              best.score, m', true⟩
        else
          ⟨finishResult source best top5 false none best.score, m, true⟩
      | none =>
        ⟨finishResult source best top5 false none best.score, m, true⟩
    else
      ⟨finishResult source best top5 false none best.score, m, false⟩

/-- `MultiCandidateMatcher.search_candidates` (matcher_v2.py:286-309): the
RPC either succeeds with rows or raises; every exception is caught and an
empty list returned.  Missing `similarity` keys default to 0. -/
inductive SearchOutcome where
  | ok (rows : List Row)
  | failure (err : String)

/-- The candidate list `search_candidates` returns for a given RPC
outcome. -/
def search_candidates (o : SearchOutcome) : List (Row × ℚ) :=
  match o with
  | .ok rows => rows.map (fun r => (r, r.similarity.getD 0))
  | .failure _ => []

/-- One source item's matching inputs within a job run. -/
structure MatchInput where
  source : Product
  candidates : List (Row × ℚ)
  visual_sims : ℕ → Option ℚ
  attempt : AICallAttempt

/-- Run `match_product` over a job's source items on one matcher instance
(the per-job scope of the arbitration counter), returning the final
matcher state and the number of arbitration invocations. -/
def runMatches (m : Matcher) : List MatchInput → Matcher × ℕ
  | [] => (m, 0)
  | inp :: rest =>
    let o := m.match_product inp.source inp.candidates inp.visual_sims inp.attempt
    let r := runMatches o.matcher rest
    (r.1, (if o.invoked then 1 else 0) + r.2)

/-! ## Progress tracking (`progress.py`) -/

/-- `JobProgress.percentage` input pair (current, total are Python ints). -/
structure JobProgressPair where
  current : ℤ
  total : ℤ

/-- Round to one decimal place (`round(x, 1)`; Python's float
round-half-even is modelled as rational rounding). -/
def round1 (x : ℚ) : ℚ := (round (x * 10) : ℤ) / 10

/-- `JobProgress.percentage` (progress.py:66-71). -/
def percentage (p : JobProgressPair) : ℚ :=
  if p.total = 0 then 0 else round1 ((p.current : ℚ) / p.total * 100)

/-- `ProgressTracker` instance state (progress.py:138-153), restricted to
the fields driving stage/position bookkeeping; timestamps are external and
enter only through the throttle decision, which is an input of each
update. -/
structure TrackerState where
  current_stage : String := "pending"
  items_processed : ℤ := 0
  total : ℤ := 0
  persisted_stage : String := "pending"
  persisted_current : ℤ := 0
  persisted_total : ℤ := 0

/-- Operations on a `ProgressTracker`.  `throttled` is the outcome of the
elapsed-time check of `update_progress` (progress.py:197-201): `true`
models a call landing inside the 0.5 s window. -/
inductive TrackerOp where
  | start_stage (stage : String) (total : ℤ)
  | update_progress (current : ℤ) (force : Bool) (throttled : Bool)
  | increment (throttled : Bool)
  | complete_stage
  | fail
  | finish_job

/-- One tracker operation (progress.py:155-274).  `_persist` writes the
persisted copy of (stage, current, total). -/
def trackerStep (st : TrackerState) : TrackerOp → TrackerState
  | .start_stage stage total =>
    { st with
      current_stage := stage
      items_processed := 0
      total := total
      persisted_stage := stage
      persisted_current := 0
      persisted_total := total }
  | .update_progress current force throttled =>
    let st := { st with items_processed := current }
    if ¬ force ∧ throttled then st
    else
      { st with
        persisted_stage := st.current_stage
        persisted_current := current
        persisted_total := st.total }
  | .increment throttled =>
    let st := { st with items_processed := st.items_processed + 1 }
    if throttled then st
    else
      { st with
        persisted_stage := st.current_stage
        persisted_current := st.items_processed
        persisted_total := st.total }
  | .complete_stage =>
    { st with
      persisted_stage := st.current_stage
      persisted_current := st.total
      persisted_total := st.total }
  | .fail =>
    { st with
      persisted_stage := "failed"
      persisted_current := st.items_processed
      persisted_total := st.total }
  | .finish_job =>
    { st with
      persisted_stage := "completed"
      persisted_current := 1
      persisted_total := 1 }

/-- Run a sequence of tracker operations. -/
def trackerRun (st : TrackerState) : List TrackerOp → TrackerState
  | [] => st
  | op :: rest => trackerRun (trackerStep st op) rest

/-- The successive persisted `current` values along a run. -/
def persistedTrace (st : TrackerState) : List TrackerOp → List ℤ
  | [] => []
  | op :: rest =>
    let st := trackerStep st op
    st.persisted_current :: persistedTrace st rest

/-- Within-stage operation sequences as the job pipeline issues them:
`update_progress`/`increment` calls whose explicit positions never fall
below the tracker's running position, with at most a final
`complete_stage` issued when the position has not overrun the stage
total. -/
def okOps (st : TrackerState) : List TrackerOp → Prop
  | [] => True
  | [.complete_stage] => st.items_processed ≤ st.total
  | .update_progress current force throttled :: rest =>
    st.items_processed ≤ current ∧
      okOps (trackerStep st (.update_progress current force throttled)) rest
  | .increment throttled :: rest =>
    okOps (trackerStep st (.increment throttled)) rest
  | _ :: _ => False

/-! ## The `run_job` matcher-configuration block (`job_runner.py`) -/

/-- Outcome of evaluating a Python expression or call. -/
inductive PyResult (α : Type) where
  | ok (val : α)
  | raises (exc : String)
  deriving DecidableEq, Repr

/-- The `MatcherConfig` dataclass exactly as declared
(matcher_v2.py:38-59): these are the only keyword arguments its generated
constructor accepts. -/
structure MatcherConfig where
  enable_ai_validation : Bool := false
  ai_validation_min_score : ℚ := 0.70
  ai_validation_max_score : ℚ := 0.94
  max_ai_validations_per_job : ℤ := 100
  enable_image_matching : Bool := false
  semantic_weight : ℚ := 0.60
  token_weight : ℚ := 0.25
  attribute_weight : ℚ := 0.15
  visual_weight : ℚ := 0
  embed_enriched_text : Bool := false
  token_norm_v2 : Bool := false
  deriving DecidableEq, Repr

/-- The declared field names of the `MatcherConfig` dataclass. -/
def matcherConfigFieldNames : List String :=
  ["enable_ai_validation", "ai_validation_min_score", "ai_validation_max_score",
   "max_ai_validations_per_job", "enable_image_matching", "semantic_weight",
   "token_weight", "attribute_weight", "visual_weight", "embed_enriched_text",
   "token_norm_v2"]

/-- The keyword-argument names passed to `MatcherConfig(...)` at
job_runner.py:147-160. -/
def runJobMatcherConfigKwargNames : List String :=
  ["enable_ai_validation", "ai_validation_min_score", "ai_validation_max_score",
   "max_ai_validations_per_job", "enable_image_matching", "embed_enriched_text",
   "token_norm_v2", "use_brand_ontology", "use_category_ontology",
   "use_variant_extractor", "use_ocr_text", "max_image_comparisons_per_job"]

/-- The local names bound in `JobRunner.run_job` before line 129 is
reached (`job` is not among them — it is never assigned anywhere in the
function). -/
def runJobPreConfigLocals : List String :=
  ["self", "job_id", "on_progress", "tracker", "site_a_products",
   "site_b_products"]

/-- The eleven local configuration values computed by the
try/except block at job_runner.py:128-145. -/
structure JobRunnerConfigVals where
  ai_enabled : Bool
  ai_min : ℚ
  ai_max : ℚ
  ai_cap : ℤ
  embed_enriched : Bool
  token_norm_v2 : Bool
  use_brand_onto : Bool
  use_category_onto : Bool
  use_variant : Bool
  use_ocr_text : Bool
  ocr_cap : ℤ
  deriving DecidableEq, Repr

/-- The `except Exception` fallback values (job_runner.py:141-145). -/
def configFallbackVals : JobRunnerConfigVals :=
  { ai_enabled := false
    ai_min := 0.70
    ai_max := 0.90
    ai_cap := 100
    embed_enriched := false
    token_norm_v2 := false
    use_brand_onto := false
    use_category_onto := false
    use_variant := false
    use_ocr_text := false
    ocr_cap := 500 }

/-- The body of the `try` block (job_runner.py:129-140): it first
evaluates `job.config`, which raises `NameError` unless a local named
`job` is bound.  `storedVals` stands for the values the block would
compute from the job's stored configuration if `job` were bound. -/
def readJobConfigTry (locals : List String)
    (storedVals : JobRunnerConfigVals) : PyResult JobRunnerConfigVals :=
  if locals.contains "job" then .ok storedVals else .raises "NameError"

/-- The whole try/except block (job_runner.py:128-145): any exception is
caught and replaced by the fallback values. -/
def configBlock (storedVals : JobRunnerConfigVals) : JobRunnerConfigVals :=
  match readJobConfigTry runJobPreConfigLocals storedVals with
  | .ok v => v
  | .raises _ => configFallbackVals

/-- A Python dataclass call: raises `TypeError` when any keyword argument
is not a declared field. -/
def dataclassCall (fields kwargs : List String) (built : MatcherConfig) :
    PyResult MatcherConfig :=
  if kwargs.any (fun k => ¬ fields.contains k) then .raises "TypeError"
  else .ok built

/-- The matcher-configuration phase of `run_job` (job_runner.py:128-162):
run the try/except block, then call `MatcherConfig(...)` with the twelve
keyword arguments of lines 147-160.  The `built` value records what the
declared fields would be set to if the call succeeded. -/
def runJobConfigPhase (storedVals : JobRunnerConfigVals) :
    PyResult MatcherConfig :=
  let vals := configBlock storedVals
  dataclassCall matcherConfigFieldNames runJobMatcherConfigKwargNames
    { enable_ai_validation := vals.ai_enabled
      ai_validation_min_score := vals.ai_min
      ai_validation_max_score := vals.ai_max
      max_ai_validations_per_job := vals.ai_cap
      enable_image_matching := vals.use_ocr_text
      embed_enriched_text := vals.embed_enriched
      token_norm_v2 := vals.token_norm_v2 }

/-! ## Derived observations and concrete instances used by the theorems -/

/-- The best candidate's score after scoring and sorting but before any
arbitration adjustment (the value `_should_ai_validate` is gated on). -/
def Matcher.preArbBestScore (m : Matcher) (source : Product)
    (candidates : List (Row × ℚ)) (visual_sims : ℕ → Option ℚ) : Option ℚ :=
  match candidates with
  | [] => none
  | _ :: _ =>
    some ((sortDesc (m.scoreCandidates source candidates visual_sims)).headD default).score

/-- A matcher with arbitration enabled and the window minimum lowered to
0.50 (both `MatcherConfig` window bounds are job-configurable). -/
def exLowMinMatcher : Matcher :=
  { config := { enable_ai_validation := true, ai_validation_min_score := 0.50 }
    ai_validator := some { enabled := true } }

/-- A matcher with arbitration enabled, the default 0.70-0.94 window, and a
per-job cap of one validation. -/
def exCapOneMatcher : Matcher :=
  { config := { enable_ai_validation := true, max_ai_validations_per_job := 1 }
    ai_validator := some { enabled := true } }

/-- A matcher with the default configuration (arbitration disabled). -/
def exDefaultMatcher : Matcher := { config := {} }

/-- A bare source product titled "a". -/
def exSourceA : Product := { title := "a" }

/-- A candidate row titled "b". -/
def exRowB : Row := { id := 0, title := "b" }

/-- A candidate row titled "a". -/
def exRowA : Row := { id := 1, title := "a" }

/-- One match input whose single candidate scores 0.73 (inside the default
0.70-0.94 window) and whose arbitration call raises. -/
def exCrashInput : MatchInput :=
  { source := exSourceA
    candidates := [(exRowA, 0.8)]
    visual_sims := fun _ => none
    attempt := .crash "timeout" }

/-- The outcome of matching "a" against the single candidate "b" at
semantic similarity 0.9 (multi-signal score 0.54) on `exLowMinMatcher`,
with the arbitration service answering REJECTED at confidence 1. -/
def exRejectedOutcome : MatchOutcome :=
  exLowMinMatcher.match_product exSourceA [(exRowB, 0.9)] (fun _ => none)
    (.call (.reply .REJECTED 1 "different products"))

/-- The outcome of one eligible arbitration attempt whose call raises. -/
def exCrashOutcome : MatchOutcome :=
  exCapOneMatcher.match_product exCrashInput.source exCrashInput.candidates
    exCrashInput.visual_sims exCrashInput.attempt

/-- A stored job configuration with AI validation switched on. -/
def exStoredVals : JobRunnerConfigVals :=
  { configFallbackVals with ai_enabled := true, use_brand_onto := true }

/-- An alias table whose canonical key is not lowercase. -/
def exAliasTable : List (String × List String) := [("Nike", ["nike inc"])]

/-! ## Theorems -/

/-- C5: the confidence classifier is a pure total function from score to
tier with the fixed, non-overlapping boundaries of the source (the listed
intervals partition ℚ, and `get_confidence_tier` is a function, so each
score receives exactly one tier), and the tier rank is monotone
non-decreasing in the score. -/
theorem claim_C5_confidence_classifier :
    (∀ s : ℚ,
      (0.95 ≤ s → get_confidence_tier s = .EXACT_MATCH) ∧
      (0.90 ≤ s → s < 0.95 → get_confidence_tier s = .HIGH_CONFIDENCE) ∧
      (0.80 ≤ s → s < 0.90 → get_confidence_tier s = .GOOD_MATCH) ∧
      (0.70 ≤ s → s < 0.80 → get_confidence_tier s = .LIKELY_MATCH) ∧
      (0.50 ≤ s → s < 0.70 → get_confidence_tier s = .MANUAL_REVIEW) ∧
      (s < 0.50 → get_confidence_tier s = .NO_MATCH)) ∧
    ∀ s t : ℚ, s ≤ t →
      (get_confidence_tier s).rank ≤ (get_confidence_tier t).rank := by
  constructor
  · intro s
    refine ⟨?_, ?_, ?_, ?_, ?_, ?_⟩ <;>
      (intros; unfold get_confidence_tier; split_ifs <;>
        first | rfl | (exfalso; linarith))
  · intro s t hst
    unfold get_confidence_tier
    split_ifs <;> first | decide | (exfalso; linarith)

/-- Witness for C5 at concrete scores. -/
theorem claim_C5_confidence_classifier_witness :
    (0.90 ≤ (0.92 : ℚ) ∧ (0.92 : ℚ) < 0.95 ∧
      get_confidence_tier 0.92 = .HIGH_CONFIDENCE) ∧
    ((0.60 : ℚ) ≤ 0.97 ∧
      (get_confidence_tier 0.60).rank ≤ (get_confidence_tier 0.97).rank) :=
  ⟨⟨by norm_num, by norm_num,
      (claim_C5_confidence_classifier.1 0.92).2.1 (by norm_num) (by norm_num)⟩,
    ⟨by norm_num, claim_C5_confidence_classifier.2 0.60 0.97 (by norm_num)⟩⟩

/-- C4: the arbitration score adjustment.  For current score `s ∈ [0,1]`
and confidence `c ∈ [0,1]`: CONFIRMED yields `min 1 (s + 0.08·c)`,
REJECTED yields `max 0 (s − 0.15·c)`, UNCERTAIN and SKIPPED (the result
recorded for any call failure) leave `s` unchanged; every adjusted score
lies in [0,1]; CONFIRMED never decreases and REJECTED never increases the
score. -/
theorem claim_C4_adjust_score (s c : ℚ) (hs0 : 0 ≤ s) (hs1 : s ≤ 1)
    (hc0 : 0 ≤ c) (hc1 : c ≤ 1) (reasoning : String) (adj : Option ℚ)
    (err : Option String) :
    adjust_score s ⟨.CONFIRMED, c, reasoning, adj, err⟩ = min 1 (s + 0.08 * c) ∧
    adjust_score s ⟨.REJECTED, c, reasoning, adj, err⟩ = max 0 (s - 0.15 * c) ∧
    adjust_score s ⟨.UNCERTAIN, c, reasoning, adj, err⟩ = s ∧
    adjust_score s ⟨.SKIPPED, c, reasoning, adj, err⟩ = s ∧
    (∀ v : ValidationResultType,
      0 ≤ adjust_score s ⟨v, c, reasoning, adj, err⟩ ∧
      adjust_score s ⟨v, c, reasoning, adj, err⟩ ≤ 1) ∧
    s ≤ adjust_score s ⟨.CONFIRMED, c, reasoning, adj, err⟩ ∧
    adjust_score s ⟨.REJECTED, c, reasoning, adj, err⟩ ≤ s := by
  have hpen : s + REJECTED_PENALTY * c = s - 0.15 * c := by
    unfold REJECTED_PENALTY; ring
  have hboost : (0 : ℚ) ≤ 0.08 * c := by positivity
  have hboost1 : 0.08 * c ≤ 0.08 := by nlinarith
  have hpen0 : (0 : ℚ) ≤ 0.15 * c := by positivity
  have hpen1 : 0.15 * c ≤ 0.15 := by nlinarith
  refine ⟨rfl, by simp [adjust_score, hpen], rfl, rfl, ?_, ?_, ?_⟩
  · intro v
    cases v <;> simp only [adjust_score] <;> constructor
    · exact le_min (by norm_num) (by unfold CONFIRMED_BOOST; linarith)
    · exact min_le_left _ _
    · exact le_max_left _ _
    · exact max_le (by norm_num) (by unfold REJECTED_PENALTY; linarith)
    · exact hs0
    · exact hs1
    · exact hs0
    · exact hs1
  · exact le_min hs1 (by show s ≤ s + 0.08 * c; linarith)
  · exact max_le hs0 (by show s + REJECTED_PENALTY * c ≤ s; unfold REJECTED_PENALTY; linarith)

/-- Witness for C4 at s = 0.8, c = 0.5. -/
theorem claim_C4_adjust_score_witness :
    (0 ≤ (0.8 : ℚ) ∧ (0.8 : ℚ) ≤ 1 ∧ 0 ≤ (0.5 : ℚ) ∧ (0.5 : ℚ) ≤ 1) ∧
    adjust_score 0.8 ⟨.CONFIRMED, 0.5, "", none, none⟩ = min 1 (0.8 + 0.08 * 0.5) :=
  ⟨by norm_num,
    (claim_C4_adjust_score 0.8 0.5 (by norm_num) (by norm_num) (by norm_num)
      (by norm_num) "" none none).1⟩

/-- C10 counterexample: with a stored configuration that switches AI
validation on, the configuration phase of `run_job` does not reach the
matcher reset at all: the `MatcherConfig(...)` call raises `TypeError`
(five of its keyword arguments are not declared dataclass fields), so the
matcher is never reset — with a disabled configuration or any other. -/
theorem claim_C10_counterexample :
    runJobConfigPhase exStoredVals = .raises "TypeError" ∧
    runJobConfigPhase exStoredVals ≠ .ok {} := by
  refine ⟨rfl, ?_⟩
  intro h
  rw [show runJobConfigPhase exStoredVals = .raises "TypeError" from rfl] at h
  exact PyResult.noConfusion h

/-- C10 amended: the matcher-configuration block of `run_job` always takes
its exception fallback (the name `job` is never bound, so `job.config`
raises `NameError`), but the subsequent `MatcherConfig(...)` construction
raises `TypeError` on its five undeclared keyword arguments, so `run_job`
fails before any matcher reset, regardless of the job's stored
configuration. -/
theorem claim_C10_config_fallback_and_typeerror (storedVals : JobRunnerConfigVals) :
    readJobConfigTry runJobPreConfigLocals storedVals = .raises "NameError" ∧
    configBlock storedVals = configFallbackVals ∧
    runJobConfigPhase storedVals = .raises "TypeError" :=
  ⟨rfl, rfl, rfl⟩

/-- C6 counterexample: the NO_MATCH result for an empty candidate list
carries the reason string "Empty catalog or no embeddings generated", not
the literal reason "empty catalog" stated by the claim. -/
theorem claim_C6_counterexample :
    (exDefaultMatcher.match_product exSourceA [] (fun _ => none) (.crash "")).result.no_match_reason =
      "Empty catalog or no embeddings generated" ∧
    (exDefaultMatcher.match_product exSourceA [] (fun _ => none) (.crash "")).result.no_match_reason ≠
      "empty catalog" :=
  ⟨rfl, by decide⟩

/-- C6 amended: candidate search returns an empty list on any lookup
failure (it is a total function: it never raises), and an empty candidate
list makes `match_product` terminate immediately with a NO_MATCH result —
no scoring, no arbitration, matcher state untouched — whose no-match
reason is the string "Empty catalog or no embeddings generated". -/
theorem claim_C6_empty_candidates (err : String) (m : Matcher)
    (source : Product) (vs : ℕ → Option ℚ) (attempt : AICallAttempt) :
    search_candidates (.failure err) = [] ∧
    (m.match_product source [] vs attempt).result = emptyCatalogResult source ∧
    (m.match_product source [] vs attempt).result.is_no_match = true ∧
    (m.match_product source [] vs attempt).result.no_match_reason =
      "Empty catalog or no embeddings generated" ∧
    (m.match_product source [] vs attempt).result.best_match = none ∧
    (m.match_product source [] vs attempt).result.top_5_candidates = [] ∧
    (m.match_product source [] vs attempt).matcher = m ∧
    (m.match_product source [] vs attempt).invoked = false :=
  ⟨rfl, rfl, rfl, rfl, rfl, rfl, rfl, rfl⟩

/-! ### String-normalisation lemmas -/

theorem lowerChar_of_find?_none {c : Char}
    (h : lowerPairs.find? (fun p => p.1 = c) = none) : lowerChar c = c := by
  simp [lowerChar, h]

theorem lowerChar_of_find?_some {c : Char} {p : Char × Char}
    (h : lowerPairs.find? (fun q => q.1 = c) = some p) : lowerChar c = p.2 := by
  simp [lowerChar, h]

theorem lowerPairs_snd_stable :
    ∀ p ∈ lowerPairs, lowerPairs.find? (fun q => q.1 = p.2) = none := by decide

theorem lowerPairs_not_ws :
    ∀ p ∈ lowerPairs, wsChar p.1 = false ∧ wsChar p.2 = false := by decide

theorem lowerChar_idem (c : Char) : lowerChar (lowerChar c) = lowerChar c := by
  cases h : lowerPairs.find? (fun q => q.1 = c) with
  | none =>
    have h' := lowerChar_of_find?_none h
    rw [h', h']
  | some p =>
    have hp := List.mem_of_find?_eq_some h
    rw [lowerChar_of_find?_some h,
      lowerChar_of_find?_none (lowerPairs_snd_stable p hp)]

theorem wsChar_lowerChar (c : Char) : wsChar (lowerChar c) = wsChar c := by
  cases h : lowerPairs.find? (fun q => q.1 = c) with
  | none => rw [lowerChar_of_find?_none h]
  | some p =>
    have hp := List.mem_of_find?_eq_some h
    have hc : p.1 = c := by simpa using List.find?_some h
    rw [lowerChar_of_find?_some h, (lowerPairs_not_ws p hp).2, ← hc,
      (lowerPairs_not_ws p hp).1]

theorem head?_dropWhile_ws {α : Type} (p : α → Bool) (l : List α) :
    ∀ x, (l.dropWhile p).head? = some x → p x = false := by
  intro x hx
  have h := List.head?_dropWhile_not p l
  rw [hx] at h
  exact h

theorem dropWhile_eq_self_of_head {α : Type} (p : α → Bool) (l : List α)
    (h : ∀ x, l.head? = some x → p x = false) : l.dropWhile p = l := by
  cases l with
  | nil => rfl
  | cons a t => simp [List.dropWhile_cons, h a rfl]

theorem getLast?_dropWhile {α : Type} (p : α → Bool) (l : List α)
    (h : l.dropWhile p ≠ []) : (l.dropWhile p).getLast? = l.getLast? := by
  obtain ⟨t, ht⟩ := List.dropWhile_suffix (l := l) p
  conv_rhs => rw [← ht]
  rw [List.getLast?_append_of_ne_nil _ h]

theorem stripList_head? (l : List Char) :
    ∀ x, (stripList l).head? = some x → wsChar x = false := by
  intro x hx
  unfold stripList at hx
  rw [List.head?_reverse] at hx
  by_cases hne : List.dropWhile wsChar (List.dropWhile wsChar l).reverse = []
  · rw [hne] at hx
    simp at hx
  · rw [getLast?_dropWhile _ _ hne, List.getLast?_reverse] at hx
    exact head?_dropWhile_ws wsChar l x hx

theorem stripList_getLast? (l : List Char) :
    ∀ x, (stripList l).getLast? = some x → wsChar x = false := by
  intro x hx
  unfold stripList at hx
  rw [List.getLast?_reverse] at hx
  exact head?_dropWhile_ws _ _ x hx

theorem stripList_eq_self (l : List Char)
    (h1 : ∀ x, l.head? = some x → wsChar x = false)
    (h2 : ∀ x, l.getLast? = some x → wsChar x = false) : stripList l = l := by
  unfold stripList
  rw [dropWhile_eq_self_of_head _ _ h1]
  rw [dropWhile_eq_self_of_head _ _ (by
    intro x hx
    rw [List.head?_reverse] at hx
    exact h2 x hx)]
  exact l.reverse_reverse

theorem stripList_idem (l : List Char) :
    stripList (stripList l) = stripList l :=
  stripList_eq_self _ (stripList_head? l) (stripList_getLast? l)

theorem dropWhile_ws_map_lowerChar (m : List Char) :
    List.dropWhile wsChar (m.map lowerChar) =
      (List.dropWhile wsChar m).map lowerChar := by
  rw [List.dropWhile_map]
  have hp : (wsChar ∘ lowerChar) = wsChar := funext fun c => wsChar_lowerChar c
  rw [hp]

theorem stripList_map_lowerChar (l : List Char) :
    stripList (l.map lowerChar) = (stripList l).map lowerChar := by
  unfold stripList
  rw [dropWhile_ws_map_lowerChar, ← List.map_reverse, dropWhile_ws_map_lowerChar,
    ← List.map_reverse]

theorem map_lowerChar_idem (l : List Char) :
    (l.map lowerChar).map lowerChar = l.map lowerChar := by
  rw [List.map_map]
  exact List.map_congr_left fun a _ => lowerChar_idem a

theorem pyLowerStrip_idem (s : String) :
    pyLowerStrip (pyLowerStrip s) = pyLowerStrip s := by
  show String.mk (stripList ((stripList (s.data.map lowerChar)).map lowerChar)) =
    String.mk (stripList (s.data.map lowerChar))
  congr 1
  rw [← stripList_map_lowerChar, map_lowerChar_idem, stripList_idem]

/-! ### Brand-canonicalization lemmas -/

theorem canonicalize_brand_some_eq (tb : List (String × List String)) (x : String) :
    canonicalize_brand (some tb) x =
      if pyLowerStrip x = "" then pyLowerStrip x
      else if tb.any (fun p => p.1 = pyLowerStrip x) then pyLowerStrip x
      else
        match tb.find? (fun p => pyLowerStrip x = p.1 ∨ p.2.contains (pyLowerStrip x)) with
        | some p => p.1
        | none => pyLowerStrip x := rfl

theorem canonicalize_brand_key_fixed (tb : List (String × List String))
    (hkeys : ∀ p ∈ tb, pyLowerStrip p.1 = p.1) :
    ∀ p ∈ tb, canonicalize_brand (some tb) p.1 = p.1 := by
  intro p hp
  rw [canonicalize_brand_some_eq, hkeys p hp]
  by_cases h0 : p.1 = ""
  · rw [if_pos h0, h0]
  · rw [if_neg h0, if_pos]
    exact List.any_eq_true.2 ⟨p, hp, by simp⟩

/-- C8 amended: brand canonicalization lowers-and-strips its input; when
the alias table's canonical keys are themselves fixed by
lowercase-and-strip (the natural normal form for a JSON alias table),
`canonicalize` is idempotent; a brand whose normalized form matches a
canonical key or an alias maps to the canonical key of a matching entry;
brands matching nothing pass through lowercased-and-stripped; with no
table loaded, canonicalization is plain lowercase-and-strip, which is
idempotent. -/
theorem claim_C8_canonicalize_idempotent :
    (∀ (tb : List (String × List String)) (x : String),
      (∀ p ∈ tb, pyLowerStrip p.1 = p.1) →
      canonicalize_brand (some tb) (canonicalize_brand (some tb) x) =
        canonicalize_brand (some tb) x ∧
      (pyLowerStrip x ≠ "" →
        (∃ p ∈ tb, pyLowerStrip x = p.1 ∨ p.2.contains (pyLowerStrip x)) →
        ∃ p ∈ tb, canonicalize_brand (some tb) x = p.1 ∧
          (pyLowerStrip x = p.1 ∨ p.2.contains (pyLowerStrip x))) ∧
      ((∀ p ∈ tb, pyLowerStrip x ≠ p.1 ∧ ¬ p.2.contains (pyLowerStrip x)) →
        canonicalize_brand (some tb) x = pyLowerStrip x)) ∧
    ∀ x : String,
      canonicalize_brand none (canonicalize_brand none x) =
        canonicalize_brand none x := by
  constructor
  · intro tb x hkeys
    have hidem := pyLowerStrip_idem x
    refine ⟨?_, ?_, ?_⟩
    · by_cases hb : pyLowerStrip x = ""
      · have hcx : canonicalize_brand (some tb) x = "" := by
          rw [canonicalize_brand_some_eq tb x, if_pos hb]
          exact hb
        rw [hcx, canonicalize_brand_some_eq tb "",
          if_pos (show pyLowerStrip "" = "" from rfl)]
        rfl
      · by_cases hany : tb.any (fun p => p.1 = pyLowerStrip x) = true
        · have hcx : canonicalize_brand (some tb) x = pyLowerStrip x := by
            rw [canonicalize_brand_some_eq tb x, if_neg hb, if_pos hany]
          rw [hcx, canonicalize_brand_some_eq tb (pyLowerStrip x), hidem,
            if_neg hb, if_pos hany]
        · cases hf : tb.find?
              (fun p => pyLowerStrip x = p.1 ∨ p.2.contains (pyLowerStrip x)) with
          | some p =>
            have hcx : canonicalize_brand (some tb) x = p.1 := by
              rw [canonicalize_brand_some_eq tb x, if_neg hb, if_neg hany, hf]
            rw [hcx]
            exact canonicalize_brand_key_fixed tb hkeys p
              (List.mem_of_find?_eq_some hf)
          | none =>
            have hcx : canonicalize_brand (some tb) x = pyLowerStrip x := by
              rw [canonicalize_brand_some_eq tb x, if_neg hb, if_neg hany, hf]
            rw [hcx, canonicalize_brand_some_eq tb (pyLowerStrip x), hidem,
              if_neg hb, if_neg hany, hf]
    · intro hb hex
      by_cases hany : tb.any (fun p => p.1 = pyLowerStrip x) = true
      · obtain ⟨p, hp, hkey⟩ := List.any_eq_true.1 hany
        have hk : p.1 = pyLowerStrip x := by simpa using hkey
        rw [canonicalize_brand_some_eq tb x, if_neg hb, if_pos hany]
        exact ⟨p, hp, hk.symm, Or.inl hk.symm⟩
      · have hfs : (tb.find?
            (fun p => pyLowerStrip x = p.1 ∨ p.2.contains (pyLowerStrip x))).isSome := by
          rw [List.find?_isSome]
          obtain ⟨q, hq, hqmatch⟩ := hex
          exact ⟨q, hq, by simpa using hqmatch⟩
        cases hf : tb.find?
            (fun p => pyLowerStrip x = p.1 ∨ p.2.contains (pyLowerStrip x)) with
        | none => rw [hf] at hfs; simp at hfs
        | some p =>
          rw [canonicalize_brand_some_eq tb x, if_neg hb, if_neg hany, hf]
          refine ⟨p, List.mem_of_find?_eq_some hf, rfl, ?_⟩
          simpa using List.find?_some hf
    · intro hnone
      have hany : ¬ tb.any (fun p => p.1 = pyLowerStrip x) = true := by
        intro h
        obtain ⟨p, hp, hkey⟩ := List.any_eq_true.1 h
        have hk : p.1 = pyLowerStrip x := by simpa using hkey
        exact (hnone p hp).1 hk.symm
      have hfn : tb.find?
          (fun p => pyLowerStrip x = p.1 ∨ p.2.contains (pyLowerStrip x)) = none := by
        rw [List.find?_eq_none]
        intro p hp
        have h := hnone p hp
        simp only [decide_eq_true_eq]
        rintro (h1 | h2)
        · exact h.1 h1
        · exact h.2 h2
      by_cases hb : pyLowerStrip x = ""
      · rw [canonicalize_brand_some_eq tb x, if_pos hb]
      · rw [canonicalize_brand_some_eq tb x, if_neg hb, if_neg hany, hfn]
  · intro x
    exact pyLowerStrip_idem x

/-- C8 counterexample: with the alias table [("Nike", ["nike inc"])] —
whose canonical key is not lowercase — canonicalization maps "nike inc" to
"Nike" but maps "Nike" to "nike", so applying it twice differs from
applying it once. -/
theorem claim_C8_counterexample :
    canonicalize_brand (some exAliasTable) "nike inc" = "Nike" ∧
    canonicalize_brand (some exAliasTable)
        (canonicalize_brand (some exAliasTable) "nike inc") = "nike" ∧
    canonicalize_brand (some exAliasTable)
        (canonicalize_brand (some exAliasTable) "nike inc") ≠
      canonicalize_brand (some exAliasTable) "nike inc" := by
  refine ⟨by decide, by decide, by decide⟩

/-- Witness for C8 on a normalized alias table. -/
theorem claim_C8_canonicalize_idempotent_witness :
    (∀ p ∈ [("nike", ["nike inc"])], pyLowerStrip p.1 = p.1) ∧
    canonicalize_brand (some [("nike", ["nike inc"])])
        (canonicalize_brand (some [("nike", ["nike inc"])]) "Nike Inc") =
      canonicalize_brand (some [("nike", ["nike inc"])]) "Nike Inc" :=
  ⟨by decide,
    (claim_C8_canonicalize_idempotent.1 [("nike", ["nike inc"])] "Nike Inc"
      (by decide)).1⟩

/-! ### Progress-tracker lemmas -/

theorem persistedTrace_chain (ops : List TrackerOp) : ∀ (st : TrackerState),
    okOps st ops → st.persisted_current ≤ st.items_processed →
    List.Chain' (· ≤ ·) (st.persisted_current :: persistedTrace st ops) := by
  induction ops with
  | nil =>
    intro st _ _
    simp [persistedTrace]
  | cons op rest ih =>
    intro st hok hinv
    cases op with
    | start_stage stage total => simp [okOps] at hok
    | fail => simp [okOps] at hok
    | finish_job => simp [okOps] at hok
    | complete_stage =>
      cases rest with
      | cons op2 rest2 => simp [okOps] at hok
      | nil =>
        simp only [okOps] at hok
        simp [persistedTrace, trackerStep, List.chain'_pair]
        linarith
    | update_progress current force throttled =>
      simp only [okOps] at hok
      obtain ⟨h1, hok'⟩ := hok
      simp only [persistedTrace]
      rw [List.chain'_cons]
      constructor
      · simp only [trackerStep]
        split_ifs <;> dsimp only <;> linarith
      · have hinv' : (trackerStep st (.update_progress current force throttled)).persisted_current ≤
            (trackerStep st (.update_progress current force throttled)).items_processed := by
          simp only [trackerStep]
          split_ifs <;> dsimp only <;> linarith
        exact ih _ hok' hinv'
    | increment throttled =>
      simp only [okOps] at hok
      simp only [persistedTrace]
      rw [List.chain'_cons]
      constructor
      · simp only [trackerStep]
        split_ifs <;> dsimp only <;> linarith
      · have hinv' : (trackerStep st (.increment throttled)).persisted_current ≤
            (trackerStep st (.increment throttled)).items_processed := by
          simp only [trackerStep]
          split_ifs <;> dsimp only <;> linarith
        exact ih _ hok hinv'

/-- C9 amended: the tracker itself stores whatever position the caller
supplies, so the persisted `current` never decreases within a stage
provided the positions passed by `update_progress` never fall below the
tracker's running position and `complete_stage` is issued only when the
position has not overrun the stage total — exactly how the job pipeline
drives it; and the reported completion percentage lies in [0,100] for
every pair with `0 ≤ current ≤ total` (it is `0` when `total = 0`), but it
is *not* clamped for arbitrary pairs. -/
theorem claim_C9_progress :
    (∀ (st0 : TrackerState) (stage : String) (total : ℤ) (ops : List TrackerOp),
      okOps (trackerStep st0 (.start_stage stage total)) ops →
      List.Chain' (· ≤ ·) (persistedTrace st0 (.start_stage stage total :: ops))) ∧
    (∀ c t : ℤ, 0 ≤ c → c ≤ t →
      0 ≤ percentage ⟨c, t⟩ ∧ percentage ⟨c, t⟩ ≤ 100) := by
  constructor
  · intro st0 stage total ops hok
    simpa [persistedTrace, trackerStep] using
      persistedTrace_chain ops (trackerStep st0 (.start_stage stage total)) hok le_rfl
  · intro c t hc hct
    by_cases ht : t = 0
    · simp [percentage, ht]
    · have htpos : (0 : ℚ) < (t : ℚ) := by
        have : 0 < t := lt_of_le_of_ne (hc.trans hct) (Ne.symm ht)
        exact_mod_cast this
      have hx0 : (0 : ℚ) ≤ (c : ℚ) / t * 100 := by positivity
      have hx1 : (c : ℚ) / t * 100 ≤ 100 := by
        have hdiv : (c : ℚ) / t ≤ 1 := by
          rw [div_le_one htpos]
          exact_mod_cast hct
        nlinarith
      have hr0 : (0 : ℤ) ≤ round ((c : ℚ) / t * 100 * 10) := by
        rw [round_eq]
        exact Int.le_floor.2 (by push_cast; nlinarith)
      have hr1 : round ((c : ℚ) / t * 100 * 10) ≤ 1000 := by
        rw [round_eq]
        have : ((c : ℚ) / t * 100 * 10 + 1 / 2) < ((1001 : ℤ) : ℚ) := by
          push_cast; nlinarith
        exact Int.lt_add_one_iff.1 (Int.floor_lt.2 this)
      constructor
      · simp only [percentage, round1, if_neg ht]
        positivity
      · simp only [percentage, round1, if_neg ht]
        rw [div_le_iff₀ (by norm_num : (0:ℚ) < 10)]
        calc ((round ((c : ℚ) / t * 100 * 10) : ℤ) : ℚ) ≤ ((1000 : ℤ) : ℚ) := by
              exact_mod_cast hr1
          _ = 100 * 10 := by norm_num

/-- C9 counterexample: the percentage is not clamped — `(current, total) =
(3, 2)` reports 150 — and within one stage (no `start_stage` reset) the
persisted current can decrease: updates at positions 5 then 3 persist the
trace [0, 5, 3]. -/
theorem claim_C9_counterexample :
    percentage ⟨3, 2⟩ = 150 ∧ ¬ percentage ⟨3, 2⟩ ≤ 100 ∧
    persistedTrace {} [.start_stage "matching" 10, .update_progress 5 false false,
      .update_progress 3 false false] = [0, 5, 3] ∧
    ¬ (5 : ℤ) ≤ 3 := by
  have h150 : percentage ⟨3, 2⟩ = 150 := by
    simp only [percentage, round1]
    rw [if_neg (by norm_num)]
    rw [show (3 : ℤ) = ((3 : ℤ) : ℤ) from rfl]
    rw [show (((3 : ℤ) : ℚ)) / ((2 : ℤ) : ℚ) * 100 * 10 = ((1500 : ℤ) : ℚ) by
      push_cast; norm_num]
    rw [round_intCast]
    norm_num
  refine ⟨h150, by rw [h150]; norm_num, by decide, by decide⟩

/-- Witness for C9 on a concrete within-stage trace and pair. -/
theorem claim_C9_progress_witness :
    (okOps (trackerStep {} (.start_stage "matching" 10))
        [.update_progress 4 false false, .update_progress 7 true false, .complete_stage] ∧
      List.Chain' (· ≤ ·) (persistedTrace {} [.start_stage "matching" 10,
        .update_progress 4 false false, .update_progress 7 true false, .complete_stage])) ∧
    ((0 : ℤ) ≤ 3 ∧ (3 : ℤ) ≤ 4 ∧
      0 ≤ percentage ⟨3, 4⟩ ∧ percentage ⟨3, 4⟩ ≤ 100) := by
  refine ⟨⟨by norm_num [okOps, trackerStep], ?_⟩, by norm_num, by norm_num, ?_, ?_⟩
  · exact claim_C9_progress.1 {} "matching" 10
      [.update_progress 4 false false, .update_progress 7 true false, .complete_stage]
      (by norm_num [okOps, trackerStep])
  · exact (claim_C9_progress.2 3 4 (by norm_num) (by norm_num)).1
  · exact (claim_C9_progress.2 3 4 (by norm_num) (by norm_num)).2

/-! ### Scoring-bound lemmas -/

theorem ratio_bound (s : ℚ) (n : ℕ) (h0 : 0 ≤ s) (h1 : s ≤ (n : ℚ)) :
    0 ≤ (if n = 0 then (0 : ℚ) else s / n) ∧
      (if n = 0 then (0 : ℚ) else s / n) ≤ 1 := by
  split_ifs with h
  · norm_num
  · have hn : (0 : ℚ) < n := by exact_mod_cast Nat.pos_of_ne_zero h
    exact ⟨div_nonneg h0 hn.le, (div_le_one hn).2 h1⟩

theorem variantCheck_bound (aT bT mt : Bool) :
    0 ≤ (variantCheck aT bT mt).2 ∧
      (variantCheck aT bT mt).2 ≤ ((variantCheck aT bT mt).1 : ℚ) := by
  unfold variantCheck
  split_ifs <;> norm_num

theorem sum5_ratio_bound (c1 c2 c3 c4 c5 : ℕ × ℚ)
    (h1 : 0 ≤ c1.2 ∧ c1.2 ≤ (c1.1 : ℚ)) (h2 : 0 ≤ c2.2 ∧ c2.2 ≤ (c2.1 : ℚ))
    (h3 : 0 ≤ c3.2 ∧ c3.2 ≤ (c3.1 : ℚ)) (h4 : 0 ≤ c4.2 ∧ c4.2 ≤ (c4.1 : ℚ))
    (h5 : 0 ≤ c5.2 ∧ c5.2 ≤ (c5.1 : ℚ)) (v : ℚ)
    (hv : (if c1.1 + c2.1 + c3.1 + c4.1 + c5.1 = 0 then none
        else some ((c1.2 + c2.2 + c3.2 + c4.2 + c5.2) /
          ((c1.1 + c2.1 + c3.1 + c4.1 + c5.1 : ℕ) : ℚ))) = some v) :
    0 ≤ v ∧ v ≤ 1 := by
  rcases Nat.eq_zero_or_pos (c1.1 + c2.1 + c3.1 + c4.1 + c5.1) with hz | hz
  · rw [if_pos hz] at hv
    exact absurd hv (by simp)
  · rw [if_neg (Nat.pos_iff_ne_zero.1 hz)] at hv
    have hv' := Option.some.inj hv
    rw [← hv']
    have hpos : (0 : ℚ) < ((c1.1 + c2.1 + c3.1 + c4.1 + c5.1 : ℕ) : ℚ) := by
      exact_mod_cast hz
    constructor
    · exact div_nonneg (by linarith [h1.1, h2.1, h3.1, h4.1, h5.1]) hpos.le
    · rw [div_le_one hpos]
      push_cast
      linarith [h1.2, h2.2, h3.2, h4.2, h5.2]

theorem compare_variants_bound (a b : Variants) :
    ∀ v, compare_variants a b = some v → 0 ≤ v ∧ v ≤ 1 := by
  intro v hv
  unfold compare_variants at hv
  dsimp only at hv
  exact sum5_ratio_bound _ _ _ _ _
    (variantCheck_bound _ _ _) (variantCheck_bound _ _ _)
    (variantCheck_bound _ _ _) (variantCheck_bound _ _ _)
    (variantCheck_bound _ _ _) v hv

theorem part_bound (p : ℚ × ℕ)
    (hp : p = (0, 0) ∨ p.2 = 1 ∧ 0 ≤ p.1 ∧ p.1 ≤ 1) :
    0 ≤ p.1 ∧ p.1 ≤ (p.2 : ℚ) := by
  rcases hp with h | ⟨h2, h0, h1⟩
  · rw [h]; norm_num
  · rw [h2]; exact ⟨h0, by exact_mod_cast h1⟩

theorem brandPart_cases (m : Matcher) (source : Product) (target : Row) :
    brandPart m source target = (0, 0) ∨
      (brandPart m source target).2 = 1 ∧ 0 ≤ (brandPart m source target).1 ∧
        (brandPart m source target).1 ≤ 1 := by
  unfold brandPart
  dsimp only
  split_ifs
  all_goals simp_all
  all_goals try norm_num

theorem catPart_cases (m : Matcher) (source : Product) (target : Row) :
    catPart m source target = (0, 0) ∨
      (catPart m source target).2 = 1 ∧ 0 ≤ (catPart m source target).1 ∧
        (catPart m source target).1 ≤ 1 := by
  unfold catPart
  dsimp only
  split_ifs
  all_goals simp_all
  all_goals try norm_num

theorem varPart_cases (m : Matcher) (source : Product) (target : Row) :
    varPart m source target = (0, 0) ∨
      (varPart m source target).2 = 1 ∧ 0 ≤ (varPart m source target).1 ∧
        (varPart m source target).1 ≤ 1 := by
  unfold varPart
  split_ifs with h
  · cases hv : compare_variants (m.variant_extractor source.title)
        (m.variant_extractor target.title) with
    | none => left; simp [hv]
    | some v =>
      right
      have hb := compare_variants_bound _ _ v hv
      simp [hv, hb.1, hb.2]
  · left; rfl

theorem attribute_match_bound (m : Matcher) (source : Product) (target : Row) :
    0 ≤ m.attribute_match source target ∧ m.attribute_match source target ≤ 1 := by
  have hb := part_bound _ (brandPart_cases m source target)
  have hc := part_bound _ (catPart_cases m source target)
  have hv := part_bound _ (varPart_cases m source target)
  unfold Matcher.attribute_match
  dsimp only
  refine (ratio_bound _ _ ?_ ?_).imp id id
  · linarith [hb.1, hc.1, hv.1]
  · push_cast
    linarith [hb.2, hc.2, hv.2]

theorem tokenJaccard_bound (m : Matcher) (s t : String) :
    0 ≤ m.tokenJaccard s t ∧ m.tokenJaccard s t ≤ 1 := by
  unfold Matcher.tokenJaccard
  dsimp only
  refine (ratio_bound _ _ ?_ ?_).imp id id
  · positivity
  · exact_mod_cast Finset.card_le_card Finset.inter_subset_union

theorem weights_facts (m : Matcher) :
    0 ≤ m.SEMANTIC_WEIGHT ∧ 0 ≤ m.TOKEN_WEIGHT ∧ 0 ≤ m.ATTRIBUTE_WEIGHT ∧
      0 ≤ m.VISUAL_WEIGHT ∧
      m.SEMANTIC_WEIGHT + m.TOKEN_WEIGHT + m.ATTRIBUTE_WEIGHT + m.VISUAL_WEIGHT = 1 := by
  unfold Matcher.SEMANTIC_WEIGHT Matcher.TOKEN_WEIGHT Matcher.ATTRIBUTE_WEIGHT
    Matcher.VISUAL_WEIGHT
  by_cases h : m.visualMode <;> simp [h] <;> norm_num

theorem visualScore_bound (m : Matcher) (visual_sim : Option ℚ)
    (hvis : ∀ v, visual_sim = some v → 0 ≤ v ∧ v ≤ 1) :
    0 ≤ m.visualScore visual_sim ∧ m.visualScore visual_sim ≤ m.VISUAL_WEIGHT := by
  obtain ⟨-, -, -, hV0, -⟩ := weights_facts m
  unfold Matcher.visualScore
  cases visual_sim with
  | none => exact ⟨le_rfl, hV0⟩
  | some v =>
    have hv := hvis v rfl
    split_ifs with h
    · constructor
      · exact mul_nonneg hv.1 hV0
      · calc v * m.VISUAL_WEIGHT ≤ 1 * m.VISUAL_WEIGHT :=
            mul_le_mul_of_nonneg_right hv.2 hV0
          _ = m.VISUAL_WEIGHT := one_mul _
    · exact ⟨le_rfl, hV0⟩

theorem brandPenalty_bound (m : Matcher) (source : Product) (target : Row)
    (combined : ℚ) (h0 : 0 ≤ combined) (h1 : combined ≤ 1) :
    0 ≤ m.brandPenalty source target combined ∧
      m.brandPenalty source target combined ≤ 1 := by
  unfold Matcher.brandPenalty
  dsimp only
  split_ifs
  · exact ⟨le_max_left _ _, max_le (by norm_num) (by linarith)⟩
  · exact ⟨h0, h1⟩
  · exact ⟨h0, h1⟩

/-- C7: in standard mode the weights are semantic 0.60, token 0.25,
attribute 0.15 (visual 0) and in visual-enabled mode 0.50/0.20/0.15/0.15,
each set summing to 1.0; and for every source product, candidate row,
semantic similarity in [0,1] and optional visual similarity in [0,1] (for
any variant-extractor output), the combined multi-signal score — including
the 0.05 brand-mismatch penalty floored at 0 — lies in [0,1]. -/
theorem claim_C7_weights_and_score_bounds :
    (∀ m : Matcher, m.visualMode = false →
      m.SEMANTIC_WEIGHT = 0.60 ∧ m.TOKEN_WEIGHT = 0.25 ∧
      m.ATTRIBUTE_WEIGHT = 0.15 ∧ m.VISUAL_WEIGHT = 0 ∧
      m.SEMANTIC_WEIGHT + m.TOKEN_WEIGHT + m.ATTRIBUTE_WEIGHT + m.VISUAL_WEIGHT = 1) ∧
    (∀ m : Matcher, m.visualMode = true →
      m.SEMANTIC_WEIGHT = 0.50 ∧ m.TOKEN_WEIGHT = 0.20 ∧
      m.ATTRIBUTE_WEIGHT = 0.15 ∧ m.VISUAL_WEIGHT = 0.15 ∧
      m.SEMANTIC_WEIGHT + m.TOKEN_WEIGHT + m.ATTRIBUTE_WEIGHT + m.VISUAL_WEIGHT = 1) ∧
    ∀ (m : Matcher) (source : Product) (target : Row) (semantic_sim : ℚ)
      (visual_sim : Option ℚ),
      0 ≤ semantic_sim → semantic_sim ≤ 1 →
      (∀ v, visual_sim = some v → 0 ≤ v ∧ v ≤ 1) →
      0 ≤ m.compute_multi_signal_score source target semantic_sim visual_sim ∧
        m.compute_multi_signal_score source target semantic_sim visual_sim ≤ 1 := by
  refine ⟨?_, ?_, ?_⟩
  · intro m h
    unfold Matcher.SEMANTIC_WEIGHT Matcher.TOKEN_WEIGHT Matcher.ATTRIBUTE_WEIGHT
      Matcher.VISUAL_WEIGHT
    simp [h]
    norm_num
  · intro m h
    unfold Matcher.SEMANTIC_WEIGHT Matcher.TOKEN_WEIGHT Matcher.ATTRIBUTE_WEIGHT
      Matcher.VISUAL_WEIGHT
    simp [h]
    norm_num
  · intro m source target semantic_sim visual_sim hs0 hs1 hvis
    obtain ⟨hS0, hT0, hA0, hV0, hsum⟩ := weights_facts m
    have htok := tokenJaccard_bound m source.title target.title
    have hattr := attribute_match_bound m source target
    have hvisb := visualScore_bound m visual_sim hvis
    have hsem : 0 ≤ semantic_sim * m.SEMANTIC_WEIGHT ∧
        semantic_sim * m.SEMANTIC_WEIGHT ≤ m.SEMANTIC_WEIGHT := by
      constructor
      · positivity
      · calc semantic_sim * m.SEMANTIC_WEIGHT ≤ 1 * m.SEMANTIC_WEIGHT :=
            mul_le_mul_of_nonneg_right hs1 hS0
          _ = m.SEMANTIC_WEIGHT := one_mul _
    have htokw : 0 ≤ m.tokenJaccard source.title target.title * m.TOKEN_WEIGHT ∧
        m.tokenJaccard source.title target.title * m.TOKEN_WEIGHT ≤ m.TOKEN_WEIGHT := by
      constructor
      · exact mul_nonneg htok.1 hT0
      · calc m.tokenJaccard source.title target.title * m.TOKEN_WEIGHT
            ≤ 1 * m.TOKEN_WEIGHT := mul_le_mul_of_nonneg_right htok.2 hT0
          _ = m.TOKEN_WEIGHT := one_mul _
    have hattrw : 0 ≤ m.attribute_match source target * m.ATTRIBUTE_WEIGHT ∧
        m.attribute_match source target * m.ATTRIBUTE_WEIGHT ≤ m.ATTRIBUTE_WEIGHT := by
      constructor
      · exact mul_nonneg hattr.1 hA0
      · calc m.attribute_match source target * m.ATTRIBUTE_WEIGHT
            ≤ 1 * m.ATTRIBUTE_WEIGHT := mul_le_mul_of_nonneg_right hattr.2 hA0
          _ = m.ATTRIBUTE_WEIGHT := one_mul _
    unfold Matcher.compute_multi_signal_score
    dsimp only
    exact brandPenalty_bound m source target _
      (by linarith [hsem.1, htokw.1, hattrw.1, hvisb.1])
      (by linarith [hsem.2, htokw.2, hattrw.2, hvisb.2])

/-- Witness for C7 on a concrete matcher, products and similarities. -/
theorem claim_C7_weights_and_score_bounds_witness :
    (exDefaultMatcher.visualMode = false ∧
      exDefaultMatcher.SEMANTIC_WEIGHT = 0.60 ∧
      exDefaultMatcher.TOKEN_WEIGHT = 0.25 ∧
      exDefaultMatcher.ATTRIBUTE_WEIGHT = 0.15 ∧
      exDefaultMatcher.VISUAL_WEIGHT = 0 ∧
      exDefaultMatcher.SEMANTIC_WEIGHT + exDefaultMatcher.TOKEN_WEIGHT +
        exDefaultMatcher.ATTRIBUTE_WEIGHT + exDefaultMatcher.VISUAL_WEIGHT = 1) ∧
    (0 ≤ (0.9 : ℚ) ∧ (0.9 : ℚ) ≤ 1 ∧
      0 ≤ exDefaultMatcher.compute_multi_signal_score exSourceA exRowB 0.9 none ∧
      exDefaultMatcher.compute_multi_signal_score exSourceA exRowB 0.9 none ≤ 1) := by
  have hmode : exDefaultMatcher.visualMode = false := rfl
  have h1 := claim_C7_weights_and_score_bounds.1 exDefaultMatcher hmode
  have h2 := claim_C7_weights_and_score_bounds.2.2 exDefaultMatcher exSourceA exRowB
    0.9 none (by norm_num) (by norm_num) (by intro v hv; cases hv)
  exact ⟨⟨hmode, h1.1, h1.2.1, h1.2.2.1, h1.2.2.2.1, h1.2.2.2.2⟩,
    by norm_num, by norm_num, h2.1, h2.2⟩

/-! ### Matching-pipeline lemmas -/

theorem finishResult_is_no_match (source : Product) (best : CandidateMatch)
    (top5 : List CandidateMatch) (a : Bool) (r : Option ValidationResultType)
    (o : ℚ) : (finishResult source best top5 a r o).is_no_match = false := rfl

theorem finishResult_best_match (source : Product) (best : CandidateMatch)
    (top5 : List CandidateMatch) (a : Bool) (r : Option ValidationResultType)
    (o : ℚ) : (finishResult source best top5 a r o).best_match = some best := rfl

theorem finishResult_ai_validated (source : Product) (best : CandidateMatch)
    (top5 : List CandidateMatch) (a : Bool) (r : Option ValidationResultType)
    (o : ℚ) : (finishResult source best top5 a r o).ai_validated = a := rfl

theorem finishResult_original_score (source : Product) (best : CandidateMatch)
    (top5 : List CandidateMatch) (a : Bool) (r : Option ValidationResultType)
    (o : ℚ) : (finishResult source best top5 a r o).original_score =
      if a then some o else none := rfl

theorem insertDesc_ne_nil (c : CandidateMatch) (l : List CandidateMatch) :
    insertDesc c l ≠ [] := by
  cases l with
  | nil => simp [insertDesc]
  | cons d ds =>
    simp only [insertDesc]
    split_ifs <;> simp

theorem sortDesc_eq_nil_iff (l : List CandidateMatch) :
    sortDesc l = [] ↔ l = [] := by
  cases l with
  | nil => simp [sortDesc]
  | cons c cs => simp [sortDesc, insertDesc_ne_nil]

theorem le_headD_sortDesc (l : List CandidateMatch) :
    ∀ y ∈ l, y.score ≤ ((sortDesc l).headD default).score := by
  induction l with
  | nil => intro y hy; cases hy
  | cons c cs ih =>
    intro y hy
    show y.score ≤ ((insertDesc c (sortDesc cs)).headD default).score
    cases hcs : sortDesc cs with
    | nil =>
      have hcs' : cs = [] := (sortDesc_eq_nil_iff cs).1 hcs
      subst hcs'
      have hy' : y = c := by simpa using hy
      subst hy'
      simp [insertDesc]
    | cons d ds =>
      have hhead : ((insertDesc c (d :: ds)).headD default) =
          if c.score ≥ d.score then c else d := by
        simp only [insertDesc]
        split_ifs <;> simp
      rw [hhead]
      rcases List.mem_cons.1 hy with rfl | hmem
      · split_ifs with h
        · exact le_rfl
        · exact le_of_not_le h
      · have hih := ih y hmem
        rw [hcs] at hih
        simp only [List.headD_cons] at hih
        split_ifs with h
        · exact hih.trans h
        · exact hih

theorem should_validate_spec (v : AIValidator) (s : ℚ)
    (h : v.should_validate s = true) :
    v.enabled = true ∧ s < 0.95 ∧ 0.50 ≤ s ∧ s ≤ 0.94 := by
  unfold AIValidator.should_validate at h
  split_ifs at h with h1 h2 h3
  have hw := of_decide_eq_true h
  exact ⟨h1, not_le.1 h2, hw.1, hw.2⟩

theorem should_ai_validate_spec (m : Matcher) (s : ℚ)
    (h : m.should_ai_validate s = true) :
    m.ai_validator.isSome = true ∧ m.config.enable_ai_validation = true ∧
    (m.ai_validations_used : ℤ) < max 0 m.config.max_ai_validations_per_job ∧
    m.config.ai_validation_min_score ≤ s ∧
    s ≤ m.config.ai_validation_max_score := by
  unfold Matcher.should_ai_validate at h
  split_ifs at h with h1 h2
  have hfo : (m.ai_validator.isNone || decide ¬ m.config.enable_ai_validation) = false :=
    Bool.eq_false_iff.2 h1
  have h1' := Bool.or_eq_false_iff.1 hfo
  have henable : m.config.enable_ai_validation = true :=
    not_not.1 (decide_eq_false_iff_not.1 h1'.2)
  have hw := of_decide_eq_true h
  refine ⟨?_, henable, not_le.1 h2, hw.1, hw.2⟩
  cases hv : m.ai_validator with
  | none => rw [hv] at h1'; simp at h1'
  | some v => simp

theorem run_ai_validation_some (m : Matcher) (s : ℚ) (attempt : AICallAttempt)
    (resp : AIValidationResponse)
    (h : m.run_ai_validation s attempt = some resp) :
    ∃ v llm, m.ai_validator = some v ∧ attempt = .call llm ∧
      resp = v.validate_match s llm := by
  unfold Matcher.run_ai_validation at h
  cases hv : m.ai_validator with
  | none => rw [hv] at h; simp at h
  | some v =>
    rw [hv] at h
    cases attempt with
    | crash e => simp at h
    | call llm => exact ⟨v, llm, rfl, rfl, (Option.some.inj h).symm⟩

theorem validate_match_adjusted_lower (v : AIValidator) (s : ℚ) (llm : LLMCall)
    (hres : (v.validate_match s llm).result ≠ .SKIPPED) :
    ∀ adj, (v.validate_match s llm).adjusted_score = some adj →
      s - 0.15 ≤ adj ∧ adj ≤ 1 := by
  intro adj hadj
  unfold AIValidator.validate_match at hres hadj
  split_ifs at hres hadj with h1 h2
  have hshould := should_validate_spec v s h2
  cases llm with
  | failure e => simp at hres
  | reply verdict rawConf reasoning =>
    dsimp only at hadj
    have hadj' := Option.some.inj hadj
    rw [← hadj']
    have hc0 : (0 : ℚ) ≤ max 0 (min 1 rawConf) := le_max_left _ _
    have hc1 : max 0 (min 1 rawConf) ≤ 1 :=
      max_le (by norm_num) (min_le_left _ _)
    cases verdict with
    | CONFIRMED =>
      dsimp only [adjust_score, ParsedVerdict.toResult]
      constructor
      · refine le_min (by linarith [hshould.2.2.2]) ?_
        unfold CONFIRMED_BOOST
        nlinarith
      · exact min_le_left _ _
    | REJECTED =>
      dsimp only [adjust_score, ParsedVerdict.toResult]
      constructor
      · refine le_trans ?_ (le_max_right _ _)
        unfold REJECTED_PENALTY
        nlinarith
      · refine max_le (by norm_num) ?_
        unfold REJECTED_PENALTY
        nlinarith [hshould.2.2.2]
    | UNCERTAIN =>
      dsimp only [adjust_score, ParsedVerdict.toResult]
      exact ⟨by linarith, by linarith [hshould.2.2.2]⟩

/-- C1 amended: the `best.score < 0.50` check runs *before* arbitration;
the claim as stated holds whenever the configured arbitration window
minimum is at least 0.65 (the default 0.70 qualifies), because a REJECTED
adjustment subtracts at most 0.15: every returned `MatchResult` then
satisfies — no-match results carry no best match and an empty top-5, and
non-no-match results carry a best match scoring at least 0.50.  When the
window minimum is configured below 0.65, arbitration can push the returned
best score below 0.50 with `is_no_match = false` (see the
counterexample). -/
theorem claim_C1_no_match_threshold (m : Matcher) (source : Product)
    (candidates : List (Row × ℚ)) (vs : ℕ → Option ℚ) (attempt : AICallAttempt)
    (hmin : 0.65 ≤ m.config.ai_validation_min_score) :
    ((m.match_product source candidates vs attempt).result.is_no_match = true →
      (m.match_product source candidates vs attempt).result.best_match = none ∧
      (m.match_product source candidates vs attempt).result.top_5_candidates = []) ∧
    ((m.match_product source candidates vs attempt).result.is_no_match = false →
      ∃ b, (m.match_product source candidates vs attempt).result.best_match = some b ∧
        NO_MATCH_THRESHOLD ≤ b.score) := by
  cases candidates with
  | nil =>
    constructor
    · intro _
      exact ⟨rfl, rfl⟩
    · intro hfalse
      exact absurd hfalse (by simp [Matcher.match_product, emptyCatalogResult])
  | cons c cs =>
    simp only [Matcher.match_product]
    set sorted := sortDesc (m.scoreCandidates source (c :: cs) vs) with hsorted
    set best := sorted.headD default with hbestdef
    by_cases hth : best.score < NO_MATCH_THRESHOLD
    · rw [if_pos hth]
      constructor
      · intro _
        exact ⟨rfl, rfl⟩
      · intro hfalse
        exact absurd hfalse (by simp [thresholdNoMatchResult])
    · rw [if_neg hth]
      have hge : NO_MATCH_THRESHOLD ≤ best.score := not_lt.1 hth
      by_cases hsh : m.should_ai_validate best.score = true
      · rw [if_pos hsh]
        cases hrun : m.run_ai_validation best.score attempt with
        | none =>
          constructor
          · intro hfalse
            exact absurd hfalse (by simp [finishResult_is_no_match])
          · intro _
            exact ⟨best, rfl, hge⟩
        | some resp =>
          dsimp only
          by_cases hskip : resp.result = .SKIPPED
          · rw [if_neg (not_not_intro hskip)]
            constructor
            · intro hfalse
              exact absurd hfalse (by simp [finishResult_is_no_match])
            · intro _
              exact ⟨best, rfl, hge⟩
          · rw [if_pos hskip]
            cases hadj : resp.adjusted_score with
            | none =>
              constructor
              · intro hfalse
                exact absurd hfalse (by simp [finishResult_is_no_match])
              · intro _
                exact ⟨best, rfl, hge⟩
            | some adj =>
              dsimp only
              by_cases hne : adj = best.score
              · rw [if_neg (not_not_intro hne)]
                constructor
                · intro hfalse
                  exact absurd hfalse (by simp [finishResult_is_no_match])
                · intro _
                  exact ⟨best, rfl, hge⟩
              · rw [if_pos hne]
                obtain ⟨v, llm, hval, hatt, hresp⟩ :=
                  run_ai_validation_some m best.score attempt resp hrun
                have hres' : (v.validate_match best.score llm).result ≠ .SKIPPED := by
                  rw [← hresp]; exact hskip
                have hadj' : (v.validate_match best.score llm).adjusted_score = some adj := by
                  rw [← hresp]; exact hadj
                have hlow := (validate_match_adjusted_lower v best.score llm hres' adj hadj').1
                have hwin := (should_ai_validate_spec m best.score hsh).2.2.2.1
                have hadjge : NO_MATCH_THRESHOLD ≤ adj := by
                  unfold NO_MATCH_THRESHOLD
                  linarith
                have hb2 : adj ≤
                    ((sortDesc (adjustedBest best adj resp.reasoning :: sorted.tail)).headD
                      default).score := by
                  have hmem := le_headD_sortDesc
                    (adjustedBest best adj resp.reasoning :: sorted.tail)
                    (adjustedBest best adj resp.reasoning) (List.mem_cons_self _ _)
                  simpa [adjustedBest] using hmem
                constructor
                · intro hfalse
                  exact absurd hfalse (by simp [finishResult_is_no_match])
                · intro _
                  exact ⟨_, rfl, le_trans hadjge hb2⟩
      · rw [if_neg hsh]
        constructor
        · intro hfalse
          exact absurd hfalse (by simp [finishResult_is_no_match])
        · intro _
          exact ⟨best, rfl, hge⟩

/-- Witness for C1 on the default configuration (window minimum 0.70). -/
theorem claim_C1_no_match_threshold_witness :
    (0.65 ≤ exDefaultMatcher.config.ai_validation_min_score) ∧
    ((exDefaultMatcher.match_product exSourceA [] (fun _ => none)
        (.crash "")).result.is_no_match = true →
      (exDefaultMatcher.match_product exSourceA [] (fun _ => none)
        (.crash "")).result.best_match = none ∧
      (exDefaultMatcher.match_product exSourceA [] (fun _ => none)
        (.crash "")).result.top_5_candidates = []) :=
  ⟨by show (0.65 : ℚ) ≤ 0.70; norm_num,
    (claim_C1_no_match_threshold exDefaultMatcher exSourceA [] (fun _ => none)
      (.crash "") (by show (0.65 : ℚ) ≤ 0.70; norm_num)).1⟩

/-! ### Concrete evaluations -/

theorem exLowMin_score :
    exLowMinMatcher.compute_multi_signal_score exSourceA exRowB 0.9 none = 0.54 := by
  have htok : exLowMinMatcher.tokenJaccard exSourceA.title exRowB.title = 0 := by
    unfold Matcher.tokenJaccard
    dsimp only
    rw [show (exLowMinMatcher.tokenize_text exSourceA.title ∩
        exLowMinMatcher.tokenize_text exRowB.title).card = 0 from by decide]
    rw [show (exLowMinMatcher.tokenize_text exSourceA.title ∪
        exLowMinMatcher.tokenize_text exRowB.title).card = 2 from by decide]
    norm_num
  have hattr : exLowMinMatcher.attribute_match exSourceA exRowB = 0 := rfl
  unfold Matcher.compute_multi_signal_score
  dsimp only
  rw [htok, hattr]
  rw [show ∀ x : ℚ, exLowMinMatcher.brandPenalty exSourceA exRowB x = x from fun _ => rfl]
  rw [show exLowMinMatcher.SEMANTIC_WEIGHT = 0.60 from rfl]
  rw [show exLowMinMatcher.TOKEN_WEIGHT = 0.25 from rfl]
  rw [show exLowMinMatcher.ATTRIBUTE_WEIGHT = 0.15 from rfl]
  rw [show exLowMinMatcher.visualScore none = 0 from rfl]
  norm_num

theorem exCapOne_score :
    exCapOneMatcher.compute_multi_signal_score exSourceA exRowA 0.8 none = 0.73 := by
  have htok : exCapOneMatcher.tokenJaccard exSourceA.title exRowA.title = 1 := by
    unfold Matcher.tokenJaccard
    dsimp only
    rw [show (exCapOneMatcher.tokenize_text exSourceA.title ∩
        exCapOneMatcher.tokenize_text exRowA.title).card = 1 from by decide]
    rw [show (exCapOneMatcher.tokenize_text exSourceA.title ∪
        exCapOneMatcher.tokenize_text exRowA.title).card = 1 from by decide]
    norm_num
  have hattr : exCapOneMatcher.attribute_match exSourceA exRowA = 0 := rfl
  unfold Matcher.compute_multi_signal_score
  dsimp only
  rw [htok, hattr]
  rw [show ∀ x : ℚ, exCapOneMatcher.brandPenalty exSourceA exRowA x = x from fun _ => rfl]
  rw [show exCapOneMatcher.SEMANTIC_WEIGHT = 0.60 from rfl]
  rw [show exCapOneMatcher.TOKEN_WEIGHT = 0.25 from rfl]
  rw [show exCapOneMatcher.ATTRIBUTE_WEIGHT = 0.15 from rfl]
  rw [show exCapOneMatcher.visualScore none = 0 from rfl]
  norm_num

theorem exLowMin_should : exLowMinMatcher.should_ai_validate 0.54 = true := by
  unfold Matcher.should_ai_validate
  rw [if_neg (show ¬ ((exLowMinMatcher.ai_validator.isNone ||
      decide ¬ exLowMinMatcher.config.enable_ai_validation) = true) by decide)]
  rw [if_neg (show ¬ ((exLowMinMatcher.ai_validations_used : ℤ) ≥
      max 0 exLowMinMatcher.config.max_ai_validations_per_job) by decide)]
  refine decide_eq_true ⟨?_, ?_⟩
  · show (0.50 : ℚ) ≤ 0.54
    norm_num
  · show (0.54 : ℚ) ≤ 0.94
    norm_num

theorem exCapOne_should : exCapOneMatcher.should_ai_validate 0.73 = true := by
  unfold Matcher.should_ai_validate
  rw [if_neg (show ¬ ((exCapOneMatcher.ai_validator.isNone ||
      decide ¬ exCapOneMatcher.config.enable_ai_validation) = true) by decide)]
  rw [if_neg (show ¬ ((exCapOneMatcher.ai_validations_used : ℤ) ≥
      max 0 exCapOneMatcher.config.max_ai_validations_per_job) by decide)]
  refine decide_eq_true ⟨?_, ?_⟩
  · show (0.70 : ℚ) ≤ 0.73
    norm_num
  · show (0.73 : ℚ) ≤ 0.94
    norm_num

theorem exValidator_should_validate :
    AIValidator.should_validate ⟨true⟩ 0.54 = true := by
  unfold AIValidator.should_validate
  rw [if_neg (not_not_intro rfl)]
  rw [if_neg (show ¬ (0.54 : ℚ) ≥ 0.95 by norm_num)]
  rw [if_neg (show ¬ (0.54 : ℚ) < MIN_SCORE_FOR_VALIDATION by
    unfold MIN_SCORE_FOR_VALIDATION; norm_num)]
  refine decide_eq_true ⟨?_, ?_⟩
  · show MIN_SCORE_FOR_VALIDATION ≤ (0.54 : ℚ)
    unfold MIN_SCORE_FOR_VALIDATION; norm_num
  · show (0.54 : ℚ) ≤ MAX_SCORE_FOR_VALIDATION
    unfold MAX_SCORE_FOR_VALIDATION; norm_num

theorem exValidator_rejected_eval :
    AIValidator.validate_match ⟨true⟩ 0.54 (.reply .REJECTED 1 "different products") =
      { result := .REJECTED, confidence := 1, reasoning := "different products",
        adjusted_score := some 0.39, error := none } := by
  unfold AIValidator.validate_match
  rw [if_neg (not_not_intro rfl)]
  rw [if_neg (not_not_intro exValidator_should_validate)]
  dsimp only
  rw [show (max 0 (min 1 (1 : ℚ))) = 1 by norm_num]
  rw [show adjust_score 0.54 { result := ParsedVerdict.REJECTED.toResult, confidence := 1, reasoning := "different products" } = 0.39 by
    unfold adjust_score ParsedVerdict.toResult
    dsimp only
    rw [show (0.54 : ℚ) + REJECTED_PENALTY * 1 = 0.39 by
      unfold REJECTED_PENALTY; norm_num]
    exact max_eq_right (by norm_num)]
  rfl

theorem exRejected_step_eq :
    exLowMinMatcher.match_product exSourceA [(exRowB, 0.9)] (fun _ => none)
      (.call (.reply .REJECTED 1 "different products")) =
    ⟨finishResult exSourceA (adjustedBest (mkCandidate exRowB 0.54) 0.39 "different products")
        [adjustedBest (mkCandidate exRowB 0.54) 0.39 "different products"] true
        (some .REJECTED) 0.54,
      { exLowMinMatcher with ai_validations_used := 1 }, true⟩ := by
  have hsc : exLowMinMatcher.scoreCandidates exSourceA [(exRowB, 0.9)] (fun _ => none) =
      [mkCandidate exRowB 0.54] := by
    rw [show exLowMinMatcher.scoreCandidates exSourceA [(exRowB, 0.9)] (fun _ => none) =
      [mkCandidate exRowB (exLowMinMatcher.compute_multi_signal_score exSourceA exRowB
        0.9 none)] from rfl, exLowMin_score]
  simp only [Matcher.match_product]
  rw [hsc]
  rw [show sortDesc [mkCandidate exRowB 0.54] = [mkCandidate exRowB 0.54] from rfl]
  rw [show [mkCandidate exRowB 0.54].headD default = mkCandidate exRowB 0.54 from rfl]
  rw [show (mkCandidate exRowB 0.54).score = 0.54 from rfl]
  rw [if_neg (show ¬ (0.54 : ℚ) < NO_MATCH_THRESHOLD by
    unfold NO_MATCH_THRESHOLD; norm_num)]
  rw [if_pos exLowMin_should]
  rw [show exLowMinMatcher.run_ai_validation 0.54
      (.call (.reply .REJECTED 1 "different products")) =
    some (AIValidator.validate_match ⟨true⟩ 0.54
      (.reply .REJECTED 1 "different products")) from rfl]
  rw [exValidator_rejected_eval]
  dsimp only
  rw [if_pos (show ValidationResultType.REJECTED ≠ .SKIPPED by decide)]
  rw [if_pos (show (0.39 : ℚ) ≠ 0.54 by norm_num)]
  rfl

theorem exCrash_step_eq :
    exCapOneMatcher.match_product exCrashInput.source exCrashInput.candidates
      exCrashInput.visual_sims exCrashInput.attempt =
    ⟨finishResult exSourceA (mkCandidate exRowA 0.73) [mkCandidate exRowA 0.73]
        false none 0.73,
      exCapOneMatcher, true⟩ := by
  have hsc : exCapOneMatcher.scoreCandidates exSourceA [(exRowA, 0.8)] (fun _ => none) =
      [mkCandidate exRowA 0.73] := by
    rw [show exCapOneMatcher.scoreCandidates exSourceA [(exRowA, 0.8)] (fun _ => none) =
      [mkCandidate exRowA (exCapOneMatcher.compute_multi_signal_score exSourceA exRowA
        0.8 none)] from rfl, exCapOne_score]
  show exCapOneMatcher.match_product exSourceA [(exRowA, 0.8)] (fun _ => none)
    (.crash "timeout") = _
  simp only [Matcher.match_product]
  rw [hsc]
  rw [show sortDesc [mkCandidate exRowA 0.73] = [mkCandidate exRowA 0.73] from rfl]
  rw [show [mkCandidate exRowA 0.73].headD default = mkCandidate exRowA 0.73 from rfl]
  rw [show (mkCandidate exRowA 0.73).score = 0.73 from rfl]
  rw [if_neg (show ¬ (0.73 : ℚ) < NO_MATCH_THRESHOLD by
    unfold NO_MATCH_THRESHOLD; norm_num)]
  rw [if_pos exCapOne_should]
  rw [show exCapOneMatcher.run_ai_validation 0.73 (.crash "timeout") =
    (none : Option AIValidationResponse) from rfl]
  rfl

theorem match_product_invoked_true (m : Matcher) (source : Product)
    (c : Row × ℚ) (cs : List (Row × ℚ)) (vs : ℕ → Option ℚ)
    (attempt : AICallAttempt)
    (hth : ¬ ((sortDesc (m.scoreCandidates source (c :: cs) vs)).headD default).score <
      NO_MATCH_THRESHOLD)
    (hsh : m.should_ai_validate
      ((sortDesc (m.scoreCandidates source (c :: cs) vs)).headD default).score = true) :
    (m.match_product source (c :: cs) vs attempt).invoked = true := by
  simp only [Matcher.match_product]
  rw [if_neg hth, if_pos hsh]
  cases hrun : m.run_ai_validation
      ((sortDesc (m.scoreCandidates source (c :: cs) vs)).headD default).score attempt with
  | none => rfl
  | some resp =>
    dsimp only
    by_cases hskip : resp.result = .SKIPPED
    · rw [if_neg (not_not_intro hskip)]
    · rw [if_pos hskip]
      cases hadj : resp.adjusted_score with
      | none => rfl
      | some adj =>
        dsimp only
        by_cases hne : adj =
            ((sortDesc (m.scoreCandidates source (c :: cs) vs)).headD default).score
        · rw [if_neg (not_not_intro hne)]
        · rw [if_pos hne]

theorem match_product_matcher_step (m : Matcher) (source : Product)
    (candidates : List (Row × ℚ)) (vs : ℕ → Option ℚ) (attempt : AICallAttempt) :
    (m.match_product source candidates vs attempt).matcher.config = m.config ∧
    ((m.match_product source candidates vs attempt).matcher.ai_validations_used =
        m.ai_validations_used ∨
      ((m.match_product source candidates vs attempt).matcher.ai_validations_used =
          m.ai_validations_used + 1 ∧
        (m.ai_validations_used : ℤ) < max 0 m.config.max_ai_validations_per_job)) := by
  cases candidates with
  | nil => exact ⟨rfl, Or.inl rfl⟩
  | cons c cs =>
    simp only [Matcher.match_product]
    set best := (sortDesc (m.scoreCandidates source (c :: cs) vs)).headD default with hbestdef
    by_cases hth : best.score < NO_MATCH_THRESHOLD
    · rw [if_pos hth]
      exact ⟨rfl, Or.inl rfl⟩
    · rw [if_neg hth]
      by_cases hsh : m.should_ai_validate best.score = true
      · rw [if_pos hsh]
        have hcap := (should_ai_validate_spec m best.score hsh).2.2.1
        cases hrun : m.run_ai_validation best.score attempt with
        | none => exact ⟨rfl, Or.inl rfl⟩
        | some resp =>
          dsimp only
          by_cases hskip : resp.result = .SKIPPED
          · rw [if_neg (not_not_intro hskip)]
            exact ⟨rfl, Or.inl rfl⟩
          · rw [if_pos hskip]
            cases hadj : resp.adjusted_score with
            | none => exact ⟨rfl, Or.inr ⟨rfl, hcap⟩⟩
            | some adj =>
              dsimp only
              by_cases hne : adj = best.score
              · rw [if_neg (not_not_intro hne)]
                exact ⟨rfl, Or.inr ⟨rfl, hcap⟩⟩
              · rw [if_pos hne]
                exact ⟨rfl, Or.inr ⟨rfl, hcap⟩⟩
      · rw [if_neg hsh]
        exact ⟨rfl, Or.inl rfl⟩

/-- C2 amended: arbitration is invoked only when the validator is present
and enabled, the pre-arbitration best score lies in the configured window
and the per-job counter is strictly below the (floored-at-zero) cap; when
not invoked, no call is made, the matcher state and the candidate's score
are unchanged and the result is not validated; and within one job the
per-job *counter* (which counts only calls returning a non-skipped
verdict, see C3) never exceeds the cap.  The number of *invocations* can
exceed the cap when calls fail or are skipped, since those do not advance
the counter (see the counterexample). -/
theorem claim_C2_arbitration_gating :
    (∀ (m : Matcher) (source : Product) (candidates : List (Row × ℚ))
        (vs : ℕ → Option ℚ) (attempt : AICallAttempt),
      (m.match_product source candidates vs attempt).invoked = true →
      m.ai_validator.isSome = true ∧ m.config.enable_ai_validation = true ∧
      (m.ai_validations_used : ℤ) < max 0 m.config.max_ai_validations_per_job ∧
      ∃ s, m.preArbBestScore source candidates vs = some s ∧
        m.config.ai_validation_min_score ≤ s ∧ s ≤ m.config.ai_validation_max_score) ∧
    (∀ (m : Matcher) (source : Product) (candidates : List (Row × ℚ))
        (vs : ℕ → Option ℚ) (attempt : AICallAttempt),
      (m.match_product source candidates vs attempt).invoked = false →
      (m.match_product source candidates vs attempt).matcher = m ∧
      (m.match_product source candidates vs attempt).result.ai_validated = false ∧
      (m.match_product source candidates vs attempt).result.original_score = none ∧
      ∀ b, (m.match_product source candidates vs attempt).result.best_match = some b →
        m.preArbBestScore source candidates vs = some b.score) ∧
    (∀ (m : Matcher) (inputs : List MatchInput),
      (m.ai_validations_used : ℤ) ≤ max 0 m.config.max_ai_validations_per_job →
      ((runMatches m inputs).1.ai_validations_used : ℤ) ≤
          max 0 m.config.max_ai_validations_per_job ∧
        (runMatches m inputs).1.config = m.config) := by
  refine ⟨?_, ?_, ?_⟩
  · intro m source candidates vs attempt hinv
    cases candidates with
    | nil => exact absurd hinv (by simp [Matcher.match_product])
    | cons c cs =>
      by_cases hth : ((sortDesc (m.scoreCandidates source (c :: cs) vs)).headD
          default).score < NO_MATCH_THRESHOLD
      · exfalso
        simp only [Matcher.match_product] at hinv
        rw [if_pos hth] at hinv
        simp at hinv
      · by_cases hsh : m.should_ai_validate
            ((sortDesc (m.scoreCandidates source (c :: cs) vs)).headD default).score = true
        · have hspec := should_ai_validate_spec m _ hsh
          exact ⟨hspec.1, hspec.2.1, hspec.2.2.1, _, rfl, hspec.2.2.2.1, hspec.2.2.2.2⟩
        · exfalso
          simp only [Matcher.match_product] at hinv
          rw [if_neg hth, if_neg hsh] at hinv
          simp at hinv
  · intro m source candidates vs attempt hinv
    cases candidates with
    | nil =>
      refine ⟨rfl, rfl, rfl, ?_⟩
      intro b hb
      simp [Matcher.match_product, emptyCatalogResult] at hb
    | cons c cs =>
      by_cases hth : ((sortDesc (m.scoreCandidates source (c :: cs) vs)).headD
          default).score < NO_MATCH_THRESHOLD
      · simp only [Matcher.match_product]
        rw [if_pos hth]
        refine ⟨rfl, rfl, rfl, ?_⟩
        intro b hb
        simp [thresholdNoMatchResult] at hb
      · by_cases hsh : m.should_ai_validate
            ((sortDesc (m.scoreCandidates source (c :: cs) vs)).headD default).score = true
        · exfalso
          rw [match_product_invoked_true m source c cs vs attempt hth hsh] at hinv
          exact absurd hinv (by simp)
        · simp only [Matcher.match_product]
          rw [if_neg hth, if_neg hsh]
          refine ⟨rfl, rfl, rfl, ?_⟩
          intro b hb
          have hb' : some ((sortDesc (m.scoreCandidates source (c :: cs) vs)).headD
              default) = some b := hb
          rw [← Option.some.inj hb']
          rfl
  · intro m inputs
    induction inputs generalizing m with
    | nil => intro h; exact ⟨h, rfl⟩
    | cons inp rest ih =>
      intro h
      obtain ⟨hcfg, hused⟩ := match_product_matcher_step m inp.source inp.candidates
        inp.visual_sims inp.attempt
      have hle : ((m.match_product inp.source inp.candidates inp.visual_sims
          inp.attempt).matcher.ai_validations_used : ℤ) ≤
          max 0 (m.match_product inp.source inp.candidates inp.visual_sims
            inp.attempt).matcher.config.max_ai_validations_per_job := by
        rw [hcfg]
        rcases hused with h1 | ⟨h1, hlt⟩
        · rw [h1]; exact h
        · rw [h1]; push_cast; exact Int.add_one_le_iff.2 hlt
      have hih := ih _ hle
      rw [hcfg] at hih
      simp only [runMatches]
      exact hih

/-- Witness for C2: a one-item job on the cap-one matcher keeps the
counter within the cap and preserves the configuration. -/
theorem claim_C2_arbitration_gating_witness :
    ((exCapOneMatcher.ai_validations_used : ℤ) ≤
      max 0 exCapOneMatcher.config.max_ai_validations_per_job) ∧
    ((runMatches exCapOneMatcher [exCrashInput]).1.ai_validations_used : ℤ) ≤
        max 0 exCapOneMatcher.config.max_ai_validations_per_job ∧
      (runMatches exCapOneMatcher [exCrashInput]).1.config = exCapOneMatcher.config :=
  ⟨by decide, claim_C2_arbitration_gating.2.2 exCapOneMatcher [exCrashInput] (by decide)⟩

/-- C2 counterexample: with a per-job cap of one, two eligible attempts
whose calls both fail are both invoked — the claimed "never invoked more
than cap times within one job" is false, because failed calls do not
advance the counter. -/
theorem claim_C2_counterexample :
    (runMatches exCapOneMatcher [exCrashInput, exCrashInput]).2 = 2 ∧
    max 0 exCapOneMatcher.config.max_ai_validations_per_job = 1 ∧
    ¬ ((runMatches exCapOneMatcher [exCrashInput, exCrashInput]).2 ≤ 1) := by
  have h2 : (runMatches exCapOneMatcher [exCrashInput, exCrashInput]).2 = 2 := by
    simp only [runMatches]
    rw [exCrash_step_eq]
    dsimp only
    rw [exCrash_step_eq]
    rfl
  exact ⟨h2, by decide, by rw [h2]; decide⟩

/-- C1 counterexample: with a job-configured arbitration window minimum of
0.50, a candidate scoring 0.54 passes the pre-arbitration 0.50 gate, is
then REJECTED by arbitration (score adjusted to 0.39 < 0.50), yet the
returned result has `is_no_match = false` and a non-empty top-5 list: the
0.50 threshold is not re-checked after the arbitration adjustment. -/
theorem claim_C1_counterexample :
    exRejectedOutcome.result.best_match.map CandidateMatch.score = some 0.39 ∧
    (0.39 : ℚ) < NO_MATCH_THRESHOLD ∧
    exRejectedOutcome.result.is_no_match = false ∧
    exRejectedOutcome.result.top_5_candidates.length = 1 := by
  have h : exRejectedOutcome = ⟨finishResult exSourceA
      (adjustedBest (mkCandidate exRowB 0.54) 0.39 "different products")
      [adjustedBest (mkCandidate exRowB 0.54) 0.39 "different products"] true
      (some .REJECTED) 0.54,
    { exLowMinMatcher with ai_validations_used := 1 }, true⟩ := exRejected_step_eq
  rw [h]
  exact ⟨rfl, by unfold NO_MATCH_THRESHOLD; norm_num, rfl, rfl⟩

/-- C3 corrected: whenever arbitration is invoked on the pre-arbitration
best score, the per-job counter increments by exactly one iff the call
returns a response whose verdict is not SKIPPED, and is unchanged iff the
call raises or the verdict is SKIPPED — so, contrary to the claim, failed
and skipped calls do not advance the counter. -/
theorem claim_C3_counter_increment (m : Matcher) (source : Product)
    (candidates : List (Row × ℚ)) (vs : ℕ → Option ℚ) (attempt : AICallAttempt)
    (hinv : (m.match_product source candidates vs attempt).invoked = true) :
    ∃ s, m.preArbBestScore source candidates vs = some s ∧
      (((m.match_product source candidates vs attempt).matcher.ai_validations_used =
          m.ai_validations_used + 1) ↔
        ∃ resp, m.run_ai_validation s attempt = some resp ∧
          resp.result ≠ ValidationResultType.SKIPPED) ∧
      (((m.match_product source candidates vs attempt).matcher.ai_validations_used =
          m.ai_validations_used) ↔
        ¬ ∃ resp, m.run_ai_validation s attempt = some resp ∧
          resp.result ≠ ValidationResultType.SKIPPED) := by
  cases candidates with
  | nil => exact absurd hinv (by simp [Matcher.match_product])
  | cons c cs =>
    by_cases hth : ((sortDesc (m.scoreCandidates source (c :: cs) vs)).headD
        default).score < NO_MATCH_THRESHOLD
    · exfalso
      simp only [Matcher.match_product] at hinv
      rw [if_pos hth] at hinv
      simp at hinv
    · by_cases hsh : m.should_ai_validate
          ((sortDesc (m.scoreCandidates source (c :: cs) vs)).headD default).score = true
      · refine ⟨((sortDesc (m.scoreCandidates source (c :: cs) vs)).headD default).score,
          rfl, ?_⟩
        have key : ((m.match_product source (c :: cs) vs attempt).matcher.ai_validations_used =
              m.ai_validations_used + 1 ∧
            ∃ resp, m.run_ai_validation
                ((sortDesc (m.scoreCandidates source (c :: cs) vs)).headD default).score
                attempt = some resp ∧ resp.result ≠ ValidationResultType.SKIPPED) ∨
            ((m.match_product source (c :: cs) vs attempt).matcher.ai_validations_used =
              m.ai_validations_used ∧
            ¬ ∃ resp, m.run_ai_validation
                ((sortDesc (m.scoreCandidates source (c :: cs) vs)).headD default).score
                attempt = some resp ∧ resp.result ≠ ValidationResultType.SKIPPED) := by
          simp only [Matcher.match_product]
          rw [if_neg hth, if_pos hsh]
          cases hrun : m.run_ai_validation
              ((sortDesc (m.scoreCandidates source (c :: cs) vs)).headD default).score
              attempt with
          | none =>
            dsimp only
            refine Or.inr ⟨rfl, ?_⟩
            rintro ⟨resp, hr, -⟩
            cases hr
          | some resp =>
            dsimp only
            by_cases hskip : resp.result = ValidationResultType.SKIPPED
            · rw [if_neg (not_not_intro hskip)]
              refine Or.inr ⟨rfl, ?_⟩
              rintro ⟨resp', hr, hne⟩
              obtain rfl : resp' = resp := (Option.some.inj hr).symm
              exact hne hskip
            · rw [if_pos hskip]
              cases hadj : resp.adjusted_score with
              | none =>
                dsimp only
                exact Or.inl ⟨rfl, resp, rfl, hskip⟩
              | some adj =>
                dsimp only
                by_cases hne : adj =
                    ((sortDesc (m.scoreCandidates source (c :: cs) vs)).headD default).score
                · rw [if_neg (not_not_intro hne)]
                  exact Or.inl ⟨rfl, resp, rfl, hskip⟩
                · rw [if_pos hne]
                  exact Or.inl ⟨rfl, resp, rfl, hskip⟩
        rcases key with ⟨h1, h2⟩ | ⟨h1, h2⟩
        · refine ⟨⟨fun _ => h2, fun _ => h1⟩, ?_, ?_⟩
          · intro h
            exact absurd (h1.symm.trans h) (by omega)
          · intro hn
            exact absurd h2 hn
        · refine ⟨⟨?_, ?_⟩, fun _ => h2, fun _ => h1⟩
          · intro h
            exact absurd (h1.symm.trans h) (by omega)
          · intro hex
            exact absurd hex h2
      · exfalso
        simp only [Matcher.match_product] at hinv
        rw [if_neg hth, if_neg hsh] at hinv
        simp at hinv

/-- Witness for C3: a concrete eligible attempt whose call raises —
invoked, with the counter unchanged (the call neither returned a
non-skipped verdict nor advanced the counter). -/
theorem claim_C3_counter_increment_witness :
    (exCapOneMatcher.match_product exCrashInput.source exCrashInput.candidates
        exCrashInput.visual_sims exCrashInput.attempt).invoked = true ∧
    ∃ s, exCapOneMatcher.preArbBestScore exCrashInput.source exCrashInput.candidates
        exCrashInput.visual_sims = some s ∧
      (((exCapOneMatcher.match_product exCrashInput.source exCrashInput.candidates
          exCrashInput.visual_sims exCrashInput.attempt).matcher.ai_validations_used =
          exCapOneMatcher.ai_validations_used + 1) ↔
        ∃ resp, exCapOneMatcher.run_ai_validation s exCrashInput.attempt = some resp ∧
          resp.result ≠ ValidationResultType.SKIPPED) ∧
      (((exCapOneMatcher.match_product exCrashInput.source exCrashInput.candidates
          exCrashInput.visual_sims exCrashInput.attempt).matcher.ai_validations_used =
          exCapOneMatcher.ai_validations_used) ↔
        ¬ ∃ resp, exCapOneMatcher.run_ai_validation s exCrashInput.attempt = some resp ∧
          resp.result ≠ ValidationResultType.SKIPPED) :=
  ⟨by rw [exCrash_step_eq], claim_C3_counter_increment exCapOneMatcher exCrashInput.source
    exCrashInput.candidates exCrashInput.visual_sims exCrashInput.attempt
    (by rw [exCrash_step_eq])⟩

/-- C3 counterexample: an eligible arbitration attempt whose call raises
is invoked, yet the per-job counter stays at zero — a failed call does
not increment it, contrary to the claim. -/
theorem claim_C3_counterexample :
    exCrashOutcome.invoked = true ∧
    exCrashOutcome.matcher.ai_validations_used = 0 ∧
    exCapOneMatcher.ai_validations_used = 0 := by
  have h : exCrashOutcome = ⟨finishResult exSourceA (mkCandidate exRowA 0.73)
      [mkCandidate exRowA 0.73] false none 0.73, exCapOneMatcher, true⟩ := exCrash_step_eq
  rw [h]
  exact ⟨rfl, rfl, rfl⟩

end URL2URL
